import Mathlib

/-!
Alert management UI: response normalisation, alert store and session

A shallow embedding of the data-handling code of the alert management client
(`src/pages/user/UserDashboard.jsx`, `src/pages/admin/AlertList.jsx`,
`src/context/AuthContext.jsx`) together with the properties proved about it.

JavaScript values are embedded as the inductive type `JSValue`; an expression
that may throw is embedded as a value of `Except JSValue α`, the error being
the thrown value.
-/

namespace AlertUI

/-! ## JavaScript values -/

/-- A JavaScript value as it occurs in a parsed JSON response body, plus
`undefined`, the result of reading a property that is not there.  Numbers are
carried as integers: the code embedded here only passes them along and tests
them for zero.  An object is its list of properties; the first binding of a
name is the property's value. -/
inductive JSValue where
  | undefined : JSValue
  | null : JSValue
  | bool (b : Bool) : JSValue
  | num (n : Int) : JSValue
  | str (s : String) : JSValue
  | arr (items : List JSValue) : JSValue
  | obj (fields : List (String × JSValue)) : JSValue

namespace JSValue

/-- The value thrown by the engine when a property of `null` or `undefined`
is read, or when such a value is destructured. -/
def typeError : JSValue :=
  .obj [("name", .str "TypeError")]

/-- The test `v === null || v === undefined`, the one made by `??` and `?.`. -/
def isNullish : JSValue → Bool
  | .undefined => true
  | .null => true
  | _ => false

/-- The builtin `Array.isArray(v)`. -/
def isArray : JSValue → Bool
  | .arr _ => true
  | _ => false

/-- The abstract operation ToBoolean, applied by `!v`, `v && w`, `v || w` and
`if (v)`. -/
def toBoolean : JSValue → Bool
  | .undefined => false
  | .null => false
  | .bool b => b
  | .num n => n != 0
  | .str s => s != ""
  | .arr _ => true
  | .obj _ => true

/-- The property read `v.k`, for the property names this program reads from
response data (none of which is a builtin property of a primitive or of an
array): it throws a TypeError on `null` and `undefined`, yields the property
of an object when it has one, and `undefined` otherwise. -/
def getProp (v : JSValue) (k : String) : Except JSValue JSValue :=
  match v with
  | .undefined => .error typeError
  | .null => .error typeError
  | .obj fields => .ok ((fields.lookup k).getD .undefined)
  | _ => .ok .undefined

/-- The optional read `v?.k`: `undefined` when `v` is nullish, `v.k`
otherwise. -/
def optProp (v : JSValue) (k : String) : Except JSValue JSValue :=
  if v.isNullish then .ok .undefined else v.getProp k

/-- The operator `x ?? y` on two expressions that may throw: `y` is evaluated
only when `x` evaluates to `null` or `undefined`. -/
def coalesce (x y : Except JSValue JSValue) : Except JSValue JSValue :=
  match x with
  | .error e => .error e
  | .ok v => if v.isNullish then y else .ok v

/-- The test `v === true`. -/
def isTrue : JSValue → Bool
  | .bool true => true
  | _ => false

/-- The test `v === false`. -/
def isFalse : JSValue → Bool
  | .bool false => true
  | _ => false

/-- The test `typeof v === 'boolean'`. -/
def isBoolean : JSValue → Bool
  | .bool _ => true
  | _ => false

mutual
/-- The abstract operation ToString, applied by `localStorage.setItem` to the
value it is given and by a template literal to the value it interpolates
(numbers: integers below `10^21` in magnitude). -/
def toStr : JSValue → String
  | .undefined => "undefined"
  | .null => "null"
  | .bool b => if b then "true" else "false"
  | .num n => toString n
  | .str s => s
  | .arr xs => joinStr xs
  | .obj _ => "[object Object]"
/-- The builtin `Array.prototype.join` with the separator `,`: `null` and
`undefined` elements contribute the empty string. -/
def joinStr : List JSValue → String
  | [] => ""
  | x :: xs =>
    (match x with
      | .undefined => ""
      | .null => ""
      | y => toStr y) ++
    (match xs with
      | [] => ""
      | _ => "," ++ joinStr xs)
end

end JSValue

open JSValue

/-! ## List extraction -/

namespace UserDashboard

/-- Lines 47-57 of `UserDashboard.jsx`: the list held in `list` after the
chain of `Array.isArray` tests on `payload`. -/
def extractList (payload : JSValue) : Except JSValue JSValue := do
  if payload.isArray then
    pure payload
  else
    let d ← payload.optProp "data"
    if d.isArray then
      payload.getProp "data"
    else
      let r ← payload.optProp "results"
      if r.isArray then
        payload.getProp "results"
      else
        let d2 ← payload.optProp "data"
        let dr ← d2.optProp "results"
        if dr.isArray then
          let d3 ← payload.getProp "data"
          d3.getProp "results"
        else
          pure (.arr [])

end UserDashboard

namespace AlertList

/-- Lines 55-65 of `AlertList.jsx`: the list held in `list` after the chain
of `Array.isArray` tests on `payload`. -/
def extractList (payload : JSValue) : Except JSValue JSValue := do
  if payload.isArray then
    pure payload
  else
    let d ← payload.optProp "data"
    if d.isArray then
      payload.getProp "data"
    else
      let r ← payload.optProp "results"
      if r.isArray then
        payload.getProp "results"
      else
        let d2 ← payload.optProp "data"
        let dr ← d2.optProp "results"
        if dr.isArray then
          let d3 ← payload.getProp "data"
          d3.getProp "results"
        else
          pure (.arr [])

end AlertList

/-! ## The specification of list extraction -/

/-- The field `k` of a payload in the sense of the specification: the value
bound to `k` when the payload is an object that has it, `undefined` (absent)
for every other payload, `null` and `undefined` included. -/
def specField (v : JSValue) (k : String) : JSValue :=
  match v with
  | .obj fields => (fields.lookup k).getD .undefined
  | _ => .undefined

/-- List extraction as the specification words it: the payload itself if it
is a sequence, else its `data` field if that is a sequence, else its `results`
field, else `data.results`, else the empty sequence. -/
def specExtractList (payload : JSValue) : JSValue :=
  if payload.isArray then payload
  else if (specField payload "data").isArray then specField payload "data"
  else if (specField payload "results").isArray then specField payload "results"
  else if (specField (specField payload "data") "results").isArray then
    specField (specField payload "data") "results"
  else .arr []

/-! ## Alert normalisation -/

namespace UserDashboard

/-- The record built by the arrow function of lines 60-69 of
`UserDashboard.jsx`.  Every field holds the JavaScript value the expression on
its right-hand side evaluated to. -/
structure Alert where
  _id : JSValue
  title : JSValue
  message : JSValue
  severity : JSValue
  isRead : JSValue
  isSnoozed : JSValue
  createdAt : JSValue
  expiryTime : JSValue

/-- The object value of a normalised alert: its eight properties, in the
order of the object literal. -/
def Alert.toJS (r : Alert) : JSValue :=
  .obj [("_id", r._id), ("title", r.title), ("message", r.message),
    ("severity", r.severity), ("isRead", r.isRead), ("isSnoozed", r.isSnoozed),
    ("createdAt", r.createdAt), ("expiryTime", r.expiryTime)]

/-- Lines 60-69 of `UserDashboard.jsx`: the arrow function mapped over the
extracted list.  The properties of the object literal are evaluated in order
and the first read that throws ends the evaluation. -/
def normalizeAlert (a : JSValue) : Except JSValue Alert := do
  let _id ← coalesce (coalesce (coalesce (a.getProp "id") (a.getProp "_id"))
    (a.getProp "pk")) (a.getProp "uuid")
  let title ← a.getProp "title"
  let message ← a.getProp "message"
  let severity ← a.getProp "severity"
  let isRead ← coalesce (coalesce (coalesce (a.getProp "is_read") (a.getProp "isRead"))
    (a.getProp "read")) (.ok (.bool false))
  let isSnoozed ← coalesce (coalesce (coalesce (a.getProp "is_snoozed")
    (a.getProp "isSnoozed")) (a.getProp "snoozed")) (.ok (.bool false))
  let createdAt ← coalesce (coalesce (a.getProp "created_at") (a.getProp "createdAt"))
    (a.getProp "created_at")
  let expiryTime ← coalesce (coalesce (a.getProp "expiry_time") (a.getProp "expiryTime"))
    (a.getProp "expiry_time")
  pure { _id := _id, title := title, message := message, severity := severity,
         isRead := isRead, isSnoozed := isSnoozed, createdAt := createdAt,
         expiryTime := expiryTime }

/-- The call `list.map(...)` of line 60: the arrow function applied to every
element in order; it throws as soon as one application throws.  A value that
is not an array has no method `map`. -/
def normalizeList (list : JSValue) : Except JSValue (List Alert) :=
  match list with
  | .arr xs => xs.mapM normalizeAlert
  | _ => .error typeError

end UserDashboard

namespace AlertList

/-- The record built by the arrow function of lines 67-75 of
`AlertList.jsx`. -/
structure Alert where
  _id : JSValue
  title : JSValue
  message : JSValue
  severity : JSValue
  visibilityType : JSValue
  isActive : JSValue
  expiryTime : JSValue

/-- The object value of a normalised admin alert: its seven properties, in
the order of the object literal. -/
def Alert.toJS (r : Alert) : JSValue :=
  .obj [("_id", r._id), ("title", r.title), ("message", r.message),
    ("severity", r.severity), ("visibilityType", r.visibilityType),
    ("isActive", r.isActive), ("expiryTime", r.expiryTime)]

/-- Lines 67-75 of `AlertList.jsx`: the arrow function mapped over the
extracted list. -/
def normalizeAlert (a : JSValue) : Except JSValue Alert := do
  let _id ← coalesce (coalesce (coalesce (a.getProp "id") (a.getProp "_id"))
    (a.getProp "pk")) (a.getProp "uuid")
  let title ← a.getProp "title"
  let message ← a.getProp "message"
  let severity ← a.getProp "severity"
  let visibilityType ← coalesce (coalesce (a.getProp "visibility_type")
    (a.getProp "visibilityType")) (a.getProp "visibility")
  let isActive ← coalesce (coalesce (coalesce (a.getProp "is_active") (a.getProp "isActive"))
    (a.getProp "active")) (.ok (.bool false))
  let expiryTime ← coalesce (coalesce (a.getProp "expiry_time") (a.getProp "expiryTime"))
    (a.getProp "expire_at")
  pure { _id := _id, title := title, message := message, severity := severity,
         visibilityType := visibilityType, isActive := isActive,
         expiryTime := expiryTime }

/-- The call `list.map(...)` of line 67. -/
def normalizeList (list : JSValue) : Except JSValue (List Alert) :=
  match list with
  | .arr xs => xs.mapM normalizeAlert
  | _ => .error typeError

end AlertList

/-! ## Fallback chains on values -/

/-- The value of `x ?? y` when neither operand throws. -/
def coalesceV (x y : JSValue) : JSValue :=
  if x.isNullish then y else x

/-- The value of a chain `x₁ ?? x₂ ?? ... ?? xₙ` of operands that do not
throw: the first operand that is neither `null` nor `undefined`, and the last
operand when there is none. -/
def coalesceChain : List JSValue → JSValue
  | [] => .undefined
  | [x] => x
  | x :: y :: rest => if x.isNullish then coalesceChain (y :: rest) else x

/-- The first value of a list that is not `undefined`, and `undefined` when
there is none: "first present, non-undefined alias wins" read literally. -/
def firstDefined : List JSValue → JSValue
  | [] => .undefined
  | .undefined :: rest => firstDefined rest
  | x :: _ => x

/-- The identifier of a raw item as the specification words it: the value of
the first of the aliases `id`, `_id`, `pk`, `uuid` that is present and not
undefined. -/
def specIdentifier (a : JSValue) : JSValue :=
  firstDefined [specField a "id", specField a "_id", specField a "pk", specField a "uuid"]

/-- The value `undefined` in place of `null`, every other value unchanged. -/
def nullToUndefined (v : JSValue) : JSValue :=
  if v.isNullish then .undefined else v

/-- A normalised user alert in which a `null` identifier, creation time or
expiry time has become `undefined`. -/
def UserDashboard.Alert.dropNull (r : UserDashboard.Alert) : UserDashboard.Alert :=
  { r with _id := nullToUndefined r._id, createdAt := nullToUndefined r.createdAt,
           expiryTime := nullToUndefined r.expiryTime }

/-- A normalised admin alert in which a `null` identifier, visibility type or
expiry time has become `undefined`. -/
def AlertList.Alert.dropNull (r : AlertList.Alert) : AlertList.Alert :=
  { r with _id := nullToUndefined r._id, visibilityType := nullToUndefined r.visibilityType,
           expiryTime := nullToUndefined r.expiryTime }

/-- The user mapping applied to a raw item and then once more to the object
it produced. -/
def UserDashboard.renormalize (a : JSValue) : Except JSValue UserDashboard.Alert := do
  let r ← UserDashboard.normalizeAlert a
  UserDashboard.normalizeAlert r.toJS

/-- The admin mapping applied to a raw item and then once more to the object
it produced. -/
def AlertList.renormalize (a : JSValue) : Except JSValue AlertList.Alert := do
  let r ← AlertList.normalizeAlert a
  AlertList.normalizeAlert r.toJS

/-! ## The alert store of the user dashboard -/

namespace UserDashboard

/-- The value held in the `feedback` state: a notice with its `type` and its
`message`. -/
structure Feedback where
  type : String
  message : String

/-- The three state variables of the `UserDashboard` component (lines 32-34).
`feedback` is `none` for the JavaScript `null`. -/
structure State where
  alerts : List Alert
  loading : Bool
  feedback : Option Feedback

/-- The state of a freshly mounted dashboard: `useState([])`,
`useState(true)`, `useState(null)`. -/
def State.initial : State :=
  { alerts := [], loading := true, feedback := none }

/-- Lines 42-69 of `loadAlerts`, the body of its `try` block up to the value
handed to `setAlerts`: `fetch` is what the awaited `userAlertAPI.getAlerts()`
settles to, a response or a thrown error. -/
def fetchedAlerts (fetch : Except JSValue JSValue) : Except JSValue (List Alert) := do
  let response ← fetch
  let payload ← response.optProp "data"
  let list ← extractList payload
  normalizeList list

/-- The function `loadAlerts` (lines 40-77): on success the alert list is
replaced by the normalised list, on any throw it is left as it is (the error
is only logged), and in both cases `loading` is cleared. -/
def loadAlerts (s : State) (fetch : Except JSValue JSValue) : State :=
  match fetchedAlerts fetch with
  | .ok normalized => { s with alerts := normalized, loading := false }
  | .error _ => { s with loading := false }

/-- The function `handleMarkAsRead` (lines 79-87): `put` is what the awaited
`userAlertAPI.markAsRead(alertId)` settles to and `fetch` what the request of
the reload that follows a success settles to. -/
def handleMarkAsRead (s : State) (_alertId : JSValue) (put fetch : Except JSValue JSValue) :
    State :=
  match put with
  | .ok _ =>
    loadAlerts { s with feedback := some ⟨"success", "Alert marked as read"⟩ } fetch
  | .error _ => { s with feedback := some ⟨"error", "Error marking alert as read"⟩ }

/-- The function `handleSnooze` (lines 89-97). -/
def handleSnooze (s : State) (_alertId : JSValue) (post fetch : Except JSValue JSValue) :
    State :=
  match post with
  | .ok _ =>
    loadAlerts { s with feedback := some ⟨"success", "Alert snoozed until end of day"⟩ } fetch
  | .error _ => { s with feedback := some ⟨"error", "Error snoozing alert"⟩ }

/-- Line 126: `safeAlerts`; the state variable `alerts` always holds an
array. -/
def safeAlerts (s : State) : List Alert :=
  s.alerts

/-- Line 127: `safeAlerts.filter(a => !a?.isRead).length`. -/
def unreadCount (s : State) : Nat :=
  ((safeAlerts s).filter (fun a => !a.isRead.toBoolean)).length

/-- Line 128: `safeAlerts.filter(a => a?.isSnoozed).length`. -/
def snoozedCount (s : State) : Nat :=
  ((safeAlerts s).filter (fun a => a.isSnoozed.toBoolean)).length

end UserDashboard

/-! ## The session -/

/-- The content of `localStorage`: key and value pairs, at most one per key
in use. -/
abbrev Storage := List (String × String)

namespace Storage

/-- The call `localStorage.getItem(k)`; `none` is the JavaScript `null`. -/
def getItem (st : Storage) (k : String) : Option String :=
  st.lookup k

/-- The call `localStorage.removeItem(k)`. -/
def removeItem (st : Storage) (k : String) : Storage :=
  st.filter (fun p => p.1 != k)

/-- The call `localStorage.setItem(k, v)` with `v` already a string. -/
def setItem (st : Storage) (k v : String) : Storage :=
  (k, v) :: st.filter (fun p => p.1 != k)

end Storage

/-! ## The response handler of the transport -/

/-- The test `v === n` against an integer literal `n`. -/
def JSValue.strictEqNum (v : JSValue) (n : Int) : Bool :=
  match v with
  | .num m => m == n
  | _ => false

namespace Api

/-- What the response handler of `api.js` can change: the content of
`localStorage` and `window.location.href`. -/
structure Browser where
  storage : Storage
  location : String

/-- The rejection handler of `api.interceptors.response` (lines 27-34 of
`api.js`) on a failed response `error`: the browser state after it and the
value the returned promise is rejected with, which is the value thrown when
the handler itself throws. -/
def responseError (b : Browser) (error : JSValue) : Browser × JSValue :=
  match (do
    let response ← error.getProp "response"
    response.optProp "status" : Except JSValue JSValue) with
  | .error thrown => (b, thrown)
  | .ok status =>
    if status.strictEqNum 401 then
      ({ storage := (b.storage.removeItem "token").removeItem "user", location := "/login" },
        error)
    else
      (b, error)

end Api

namespace AuthContext

/-- The state of `AuthProvider` (lines 7-9) together with the content of
`localStorage`, which its functions read and write. -/
structure Session where
  user : JSValue
  loading : Bool
  token : JSValue
  storage : Storage

/-- The value `login` resolves to: `{ success: true, user }` or
`{ success: false, message }`. -/
inductive LoginResult where
  | success (user : JSValue) : LoginResult
  | failure (message : JSValue) : LoginResult

/-- Lines 7-9: the state on the first render, for a given content of
`localStorage`. -/
def init (st : Storage) : Session :=
  { user := .null,
    loading := true,
    token := match st.getItem "token" with
      | some t => .str t
      | none => .null,
    storage := st }

/-- The function `logout` (lines 62-67). -/
def logout (s : Session) : Session :=
  { s with storage := (s.storage.removeItem "token").removeItem "user",
           token := .null,
           user := .null }

/-- Lines 28-31 of `loadUser`: the value handed to `setUser` for a resolved
response. -/
def unwrapUser (response : JSValue) : Except JSValue JSValue := do
  let payload ← response.optProp "data"
  let userPayload ← coalesce (payload.optProp "data") (.ok payload)
  if userPayload.toBoolean then
    let u ← userPayload.getProp "user"
    if u.toBoolean then
      userPayload.getProp "user"
    else
      pure userPayload
  else
    pure userPayload

/-- The function `loadUser` (lines 23-39): `fetch` is what the awaited
`authAPI.getCurrentUser()` settles to.  A throw inside the `try` block runs
`logout`; `loading` is cleared in every case. -/
def loadUser (s : Session) (fetch : Except JSValue JSValue) : Session :=
  match fetch >>= unwrapUser with
  | .ok userPayload => { s with user := userPayload, loading := false }
  | .error _ => { logout s with loading := false }

/-- The function `loadUserCb` (lines 11-17), run by the effect of lines
19-21, as one uninterrupted call: the token is tested, and the identity
request it issues settles to `fetch` before anything else happens to the
session. -/
def restore (s : Session) (fetch : Except JSValue JSValue) : Session :=
  if s.token.toBoolean then loadUser s fetch else { s with loading := false }

/-- Line 44: `const { token, user } = response.data.data`. -/
def destructureLogin (response : JSValue) : Except JSValue (JSValue × JSValue) := do
  let d ← response.getProp "data"
  let dd ← d.getProp "data"
  let token ← dd.getProp "token"
  let user ← dd.getProp "user"
  pure (token, user)

/-- Line 57: `error.response?.data?.message || 'Login failed'`. -/
def loginMessage (error : JSValue) : Except JSValue JSValue := do
  let r ← error.getProp "response"
  let d ← r.optProp "data"
  let m ← d.optProp "message"
  if m.toBoolean then pure m else pure (.str "Login failed")

/-- The function `login` (lines 41-60): `post` is what the request
`authAPI.login(credentials)` settles to on the wire and `stringify` is the
builtin `JSON.stringify`.  A failed response first passes the response
handler of the axios instance (`Api.responseError`), which on a 401 removes
the persisted token and user before the `catch` block of `login` receives the
rejection; the location the handler sets is `/login`, the route the login
screen is on.  The result is the new state and what the call resolves to. -/
def login (stringify : JSValue → JSValue) (s : Session) (post : Except JSValue JSValue) :
    Session × Except JSValue LoginResult :=
  match post with
  | .ok response =>
    match destructureLogin response with
    | .ok (token, user) =>
      ({ s with storage := (s.storage.setItem "token" token.toStr).setItem "user"
                  (stringify user).toStr,
                token := token,
                user := user },
       .ok (.success user))
    | .error error =>
      (s, (loginMessage error).map LoginResult.failure)
  | .error error =>
    ({ s with storage := (Api.responseError ⟨s.storage, "/login"⟩ error).1.storage },
     (loginMessage (Api.responseError ⟨s.storage, "/login"⟩ error).2).map LoginResult.failure)

/-- What can happen to a session when no call overlaps a pending identity
request: the restore effect runs and its identity request settles to `fetch`
before anything else happens, `login` is called and its request settles to
`post`, or `logout` is called. -/
inductive Event where
  | restore (fetch : Except JSValue JSValue) : Event
  | login (post : Except JSValue JSValue) : Event
  | logout : Event

/-- The session after one event. -/
def step (stringify : JSValue → JSValue) (s : Session) : Event → Session
  | .restore fetch => restore s fetch
  | .login post => (login stringify s post).1
  | .logout => logout s

/-- The session after a sequence of events, each settled before the next. -/
def run (stringify : JSValue → JSValue) (s : Session) (events : List Event) : Session :=
  events.foldl (step stringify) s

/-- The provider between two steps: its session and the number of identity
requests that `loadUser` has issued and that have not settled yet. -/
structure Provider where
  session : Session
  inFlight : Nat

/-- The provider on the first render: the initial session, nothing in
flight. -/
def mount (st : Storage) : Provider :=
  { session := init st, inFlight := 0 }

/-- The steps of the provider, with the issue of an identity request and its
settlement apart.  `effect`: the effect of lines 19-21 runs `loadUserCb`, which
tests `token` (line 12) and either issues the identity request or clears
`loading`; React runs it after the first render and after every change of
`token`, and the model lets it run at any point.  `settle`: an identity
request in flight settles to `fetch` and `loadUser` resumes after its `await`
(lines 28-37), on the session as it is by then.  `login` and `logout`: the
calls of the two functions, `post` being what the login request settles
to. -/
inductive Action where
  | effect : Action
  | settle (fetch : Except JSValue JSValue) : Action
  | login (post : Except JSValue JSValue) : Action
  | logout : Action

/-- The provider after one step.  A settlement with nothing in flight does
not happen. -/
def advance (stringify : JSValue → JSValue) (p : Provider) : Action → Provider
  | .effect =>
    if p.session.token.toBoolean then { p with inFlight := p.inFlight + 1 }
    else { p with session := { p.session with loading := false } }
  | .settle fetch =>
    match p.inFlight with
    | 0 => p
    | n + 1 => { session := loadUser p.session fetch, inFlight := n }
  | .login post => { p with session := (login stringify p.session post).1 }
  | .logout => { p with session := logout p.session }

/-- The provider after a sequence of steps. -/
def play (stringify : JSValue → JSValue) (p : Provider) (actions : List Action) : Provider :=
  actions.foldl (advance stringify) p

/-- A step whose resolved response carries an identity: a resolved identity
request unwraps to a truthy user, and a login response from which line 44
can take `token` and `user` holds both truthy.  Rejected requests, `effect`
and `logout` qualify as they are. -/
def Action.carriesIdentity : Action → Bool
  | .settle (.ok response) =>
    match unwrapUser response with
    | .ok u => u.toBoolean
    | .error _ => true
  | .settle (.error _) => true
  | .login (.ok response) =>
    match destructureLogin response with
    | .ok (token, user) => token.toBoolean && user.toBoolean
    | .error _ => true
  | .login (.error _) => true
  | .effect => true
  | .logout => true

/-- No identity request resolves after the token has been cleared: every
resolving settlement of the sequence, played from `p`, happens in a state
whose token is present (or with nothing in flight, when it does not
happen). -/
def timely (stringify : JSValue → JSValue) : Provider → List Action → Bool
  | _, [] => true
  | p, a :: rest =>
    (match a with
      | .settle (.ok _) => p.inFlight == 0 || p.session.token.toBoolean
      | _ => true) &&
    timely stringify (advance stringify p a) rest

end AuthContext

/-- Once `loading` is cleared, a token is never present without a user.
Present means truthy, the test of `if (token)`. -/
def AuthContext.TokenHasUser (s : AuthContext.Session) : Prop :=
  s.loading = false → s.token.toBoolean = true → s.user.toBoolean = true

/-- A user is never present without a token. -/
def AuthContext.UserHasToken (s : AuthContext.Session) : Prop :=
  s.user.toBoolean = true → s.token.toBoolean = true

/-! ## Roles, the login screen and the access gate -/

/-- The test `v === s` against a string literal `s`. -/
def JSValue.strictEqStr (v : JSValue) (s : String) : Bool :=
  match v with
  | .str t => t == s
  | _ => false

/-- The function `isAdmin` (lines 69-71 of `AuthContext.jsx`):
`user?.role === 'admin'`. -/
def AuthContext.isAdmin (s : AuthContext.Session) : Except JSValue Bool := do
  let role ← s.user.optProp "role"
  pure (role.strictEqStr "admin")

namespace Login

/-- The state of the `Login` component that `handleSubmit` writes (lines
26-27), and the path last handed to `navigate`, `none` while `navigate` has
not been called. -/
structure State where
  error : JSValue
  loading : Bool
  navigated : Option String

/-- Lines 46-53 of `Login.jsx`: the path handed to `navigate` after a
successful login that returned `user`.  The function `isAdmin` called here is
the one of the render in which `handleSubmit` was created, so it reads the
user of the session as it was before the call, `before`. -/
def redirectTarget (before : AuthContext.Session) (user : JSValue) : Except JSValue String := do
  let loggedInUser ← coalesce (.ok user) (.ok .null)
  let role ← loggedInUser.optProp "role"
  let admin ← if role.strictEqStr "admin" then pure true else AuthContext.isAdmin before
  if admin then pure "/admin/dashboard" else pure "/dashboard"

/-- The function `handleSubmit` (lines 37-59 of `Login.jsx`) on the session
`before`: the session after the call and the state of the component, or the
value thrown when `login` itself throws (the component is then left with
`loading` set). -/
def handleSubmit (stringify : JSValue → JSValue) (before : AuthContext.Session) (ui : State)
    (post : Except JSValue JSValue) : AuthContext.Session × Except JSValue State :=
  match AuthContext.login stringify before post with
  | (after, .error thrown) => (after, .error thrown)
  | (after, .ok (.success user)) =>
    match redirectTarget before user with
    | .ok path =>
      (after, .ok { ui with error := .str "", navigated := some path, loading := false })
    | .error thrown => (after, .error thrown)
  | (after, .ok (.failure message)) =>
    (after, .ok { ui with error := message, loading := false })

end Login

/-- The three outcomes of the access gate: render nothing, redirect to a
path, or render the protected screen. -/
inductive GateDecision where
  | hold : GateDecision
  | redirect (path : String) : GateDecision
  | allow : GateDecision

/-- Modelled from the spec: the component `ProtectedRoute`
(`src/components/ProtectedRoute.jsx`, imported by `App.jsx` and wrapped around
every route but `/login`) is not among the sources.  Section 4.3: while
restoration is in flight the gate holds; with no session it redirects to the
login entry (`/login`, the public route of `App.jsx`); with a session, a
route that requires the `admin` capability and a role that is not `admin` it
redirects to the non-admin landing screen (`/dashboard`); otherwise it
allows.  A session is there when the user is present; the capability is the
accessor `isAdmin` of the session. -/
def ProtectedRoute (adminOnly : Bool) (s : AuthContext.Session) : Except JSValue GateDecision := do
  if s.loading then
    pure .hold
  else if !s.user.toBoolean then
    pure (.redirect "/login")
  else
    let admin ← AuthContext.isAdmin s
    if adminOnly && !admin then
      pure (.redirect "/dashboard")
    else
      pure .allow

/-! ## The status shown by the admin list -/

namespace AlertList

/-- The three chips of `getStatusChip`. -/
inductive Status where
  | expired : Status
  | active : Status
  | inactive : Status

/-- The comparison `expiry < now` of two `Date` objects, on their time values
in milliseconds; `none` is the time value `NaN` of an invalid date, for which
every comparison is false. -/
def dateLt (expiry : Option Int) (now : Int) : Bool :=
  match expiry with
  | some e => decide (e < now)
  | none => false

/-- The function `getStatusChip` (lines 124-135 of `AlertList.jsx`).  `toTime`
is the builtin `Date` constructor, as the time value of `new Date(v)`, and
`now` the time value of `new Date()`. -/
def getStatusChip (toTime : JSValue → Option Int) (now : Int) (alert : Alert) : Status :=
  let expiry := toTime alert.expiryTime
  if dateLt expiry now then .expired
  else if alert.isActive.toBoolean then .active
  else .inactive

end AlertList

/-! ## The requests of the transport -/

namespace Api

/-- A call handed to the axios instance: its method and its path below the
base URL. -/
structure Request where
  method : String
  url : String

/-- Line 57 of `api.js`: `` api.put(`/user/alerts/${alertId}/mark_read/`) ``.
The template literal interpolates the string form of `alertId`. -/
def userAlertAPI.markAsRead (alertId : JSValue) : Request :=
  { method := "put", url := "/user/alerts/" ++ alertId.toStr ++ "/mark_read/" }

/-- Line 59 of `api.js`: `` api.post(`/user/alerts/${alertId}/snooze/`) ``. -/
def userAlertAPI.snoozeAlert (alertId : JSValue) : Request :=
  { method := "post", url := "/user/alerts/" ++ alertId.toStr ++ "/snooze/" }

/-- Line 50 of `api.js`: `` api.delete(`/admin/alerts/${id}/archive/`) ``. -/
def adminAlertAPI.archiveAlert (id : JSValue) : Request :=
  { method := "delete", url := "/admin/alerts/" ++ id.toStr ++ "/archive/" }

/-- Line 51 of `api.js`: `` api.post(`/admin/alerts/${id}/trigger/`) ``. -/
def adminAlertAPI.triggerAlert (id : JSValue) : Request :=
  { method := "post", url := "/admin/alerts/" ++ id.toStr ++ "/trigger/" }

/-- The request configuration an interceptor receives: its `headers`, `none`
when the configuration has no headers object, and everything else it holds
(URL, method, parameters, body). -/
structure Config where
  headers : Option (List (String × String))
  rest : JSValue

/-- The value of the header `k` of a configuration, `none` when it is not
set. -/
def Config.header (config : Config) (k : String) : Option String :=
  match config.headers with
  | some hs => hs.lookup k
  | none => none

/-- Line 15 of `api.js`:
`localStorage.getItem('token') || localStorage.getItem('accessToken')`; a
string is truthy when it is not empty. -/
def storedToken (st : Storage) : Option String :=
  match st.getItem "token" with
  | some t => if t != "" then some t else st.getItem "accessToken"
  | none => st.getItem "accessToken"

/-- The assignment `headers[k] = v` on a headers object. -/
def setHeader (hs : List (String × String)) (k v : String) : List (String × String) :=
  (k, v) :: hs.filter (fun p => p.1 != k)

/-- The request handler of `api.interceptors.request` (lines 14-21 of
`api.js`) for a given content of `localStorage`. -/
def requestHandler (st : Storage) (config : Config) : Config :=
  match storedToken st with
  | some token =>
    if token != "" then
      { config with
        headers := some (setHeader (config.headers.getD []) "Authorization"
          ("Bearer " ++ token)) }
    else config
  | none => config

end Api

/-! ## The lifecycle calls of the two screens -/

namespace UserDashboard

/-- The remote call issued by `handleMarkAsRead(alertId)` (line 81): one call,
made at the head of the `try` block whatever `alertId` is. -/
def markAsReadCalls (alertId : JSValue) : List Api.Request :=
  [Api.userAlertAPI.markAsRead alertId]

/-- The remote call issued by `handleSnooze(alertId)` (line 91). -/
def snoozeCalls (alertId : JSValue) : List Api.Request :=
  [Api.userAlertAPI.snoozeAlert alertId]

/-- The click on "Mark as Read" of the card of `alert` (line 288):
`handleMarkAsRead(alert._id)`. -/
def clickMarkAsRead (alert : Alert) : List Api.Request :=
  markAsReadCalls alert._id

/-- The click on "Snooze for Today" of the card of `alert` (line 297):
`handleSnooze(alert._id)`. -/
def clickSnooze (alert : Alert) : List Api.Request :=
  snoozeCalls alert._id

end UserDashboard

namespace AlertList

/-- The state variables of the `AlertList` component (lines 38-45);
`selectedAlert` is `none` for the JavaScript `null`. -/
structure State where
  alerts : List Alert
  loading : Bool
  severity : String
  status : String
  selectedAlert : Option Alert
  deleteDialog : Bool

/-- Lines 53-75 of `loadAlerts`, the body of its `try` block up to the value
handed to `setAlerts`: `fetch` is what the awaited
`adminAlertAPI.getAlerts(filters)` settles to. -/
def fetchedAlerts (fetch : Except JSValue JSValue) : Except JSValue (List Alert) := do
  let response ← fetch
  let payload ← response.optProp "data"
  let list ← extractList payload
  normalizeList list

/-- The function `loadAlerts` (lines 51-83 of `AlertList.jsx`). -/
def loadAlerts (s : State) (fetch : Except JSValue JSValue) : State :=
  match fetchedAlerts fetch with
  | .ok normalized => { s with alerts := normalized, loading := false }
  | .error _ => { s with loading := false }

/-- The click on the archive icon of the row of `alert` (lines 261-264):
`setSelectedAlert(alert); setDeleteDialog(true)`. -/
def openDeleteDialog (s : State) (alert : Alert) : State :=
  { s with selectedAlert := some alert, deleteDialog := true }

/-- The handler `onClose` of the dialog and the click on "Cancel" (lines 278
and 286): `setDeleteDialog(false)`. -/
def closeDeleteDialog (s : State) : State :=
  { s with deleteDialog := false }

/-- The remote call issued by `handleDelete` (line 94): none when
`selectedAlert` is `null`, since the read `selectedAlert._id` then throws
before the call is made. -/
def archiveCalls (s : State) : List Api.Request :=
  match s.selectedAlert with
  | some alert => [Api.adminAlertAPI.archiveAlert alert._id]
  | none => []

/-- The remote call issued by `handleTrigger(alertId)` (line 104). -/
def triggerCalls (alertId : JSValue) : List Api.Request :=
  [Api.adminAlertAPI.triggerAlert alertId]

/-- The click on the trigger icon of the row of `alert` (line 253):
`handleTrigger(alert._id)`. -/
def clickTrigger (alert : Alert) : List Api.Request :=
  triggerCalls alert._id

/-- The function `handleDelete` (lines 92-100): `del` is what the awaited
`adminAlertAPI.archiveAlert(selectedAlert._id)` settles to and `fetch` what the
request of the reload that follows a success settles to.  Every throw inside
the `try` block is only logged. -/
def handleDelete (s : State) (del fetch : Except JSValue JSValue) : State :=
  match s.selectedAlert with
  | none => s
  | some _ =>
    match del with
    | .ok _ => loadAlerts { s with deleteDialog := false } fetch
    | .error _ => s

end AlertList

/-! ## Properties -/

theorem getProp_eq_specField (v : JSValue) (k : String) (h : v.isNullish = false) :
    v.getProp k = .ok (specField v k) := by
  cases v <;> simp_all [JSValue.getProp, specField, JSValue.isNullish]

theorem optProp_eq_specField (v : JSValue) (k : String) :
    v.optProp k = .ok (specField v k) := by
  cases v <;> simp [JSValue.optProp, JSValue.getProp, specField, JSValue.isNullish]

theorem isNullish_of_specField_isArray (v : JSValue) (k : String)
    (h : (specField v k).isArray = true) : v.isNullish = false := by
  cases v <;> simp_all [specField, JSValue.isNullish, JSValue.isArray]

theorem userExtractList_eq (payload : JSValue) :
    UserDashboard.extractList payload = .ok (specExtractList payload) := by
  unfold UserDashboard.extractList specExtractList
  by_cases h0 : payload.isArray = true
  · simp [h0, pure, Except.pure]
  · by_cases h1 : (specField payload "data").isArray = true
    · have hn := isNullish_of_specField_isArray payload "data" h1
      simp [h0, h1, optProp_eq_specField, getProp_eq_specField payload "data" hn,
        bind, Except.bind]
    · by_cases h2 : (specField payload "results").isArray = true
      · have hn := isNullish_of_specField_isArray payload "results" h2
        simp [h0, h1, h2, optProp_eq_specField, getProp_eq_specField payload "results" hn,
          bind, Except.bind]
      · by_cases h3 : (specField (specField payload "data") "results").isArray = true
        · have hd := isNullish_of_specField_isArray (specField payload "data") "results" h3
          have hp : payload.isNullish = false := by
            cases payload <;> simp_all [specField, JSValue.isNullish, JSValue.isArray]
          simp [h0, h1, h2, h3, optProp_eq_specField, getProp_eq_specField payload "data" hp,
            getProp_eq_specField (specField payload "data") "results" hd, bind, Except.bind]
        · simp [h0, h1, h2, h3, optProp_eq_specField, bind, Except.bind, pure, Except.pure]

theorem adminExtractList_eq (payload : JSValue) :
    AlertList.extractList payload = .ok (specExtractList payload) := by
  unfold AlertList.extractList specExtractList
  by_cases h0 : payload.isArray = true
  · simp [h0, pure, Except.pure]
  · by_cases h1 : (specField payload "data").isArray = true
    · have hn := isNullish_of_specField_isArray payload "data" h1
      simp [h0, h1, optProp_eq_specField, getProp_eq_specField payload "data" hn,
        bind, Except.bind]
    · by_cases h2 : (specField payload "results").isArray = true
      · have hn := isNullish_of_specField_isArray payload "results" h2
        simp [h0, h1, h2, optProp_eq_specField, getProp_eq_specField payload "results" hn,
          bind, Except.bind]
      · by_cases h3 : (specField (specField payload "data") "results").isArray = true
        · have hd := isNullish_of_specField_isArray (specField payload "data") "results" h3
          have hp : payload.isNullish = false := by
            cases payload <;> simp_all [specField, JSValue.isNullish, JSValue.isArray]
          simp [h0, h1, h2, h3, optProp_eq_specField, getProp_eq_specField payload "data" hp,
            getProp_eq_specField (specField payload "data") "results" hd, bind, Except.bind]
        · simp [h0, h1, h2, h3, optProp_eq_specField, bind, Except.bind, pure, Except.pure]

theorem coalesce_ok_ok (x y : JSValue) :
    coalesce (.ok x) (.ok y) = .ok (coalesceV x y) := by
  by_cases hx : x.isNullish = true <;> simp [coalesce, coalesceV, hx]

theorem coalesceV_undefined_left (y : JSValue) : coalesceV .undefined y = y := rfl

theorem coalesceV_undefined_right (x : JSValue) :
    coalesceV x .undefined = nullToUndefined x := rfl

theorem nullToUndefined_of_ne_null (v : JSValue) (h : v ≠ .null) :
    nullToUndefined v = v := by
  cases v <;> simp_all [nullToUndefined, JSValue.isNullish]

/-- The user mapping on an item that is neither `null` nor `undefined`: every
read succeeds and the record holds the values of the fallback chains. -/
theorem userNormalizeAlert_ok (a : JSValue) (h : a.isNullish = false) :
    UserDashboard.normalizeAlert a = .ok
      { _id := coalesceV (coalesceV (coalesceV (specField a "id") (specField a "_id"))
          (specField a "pk")) (specField a "uuid"),
        title := specField a "title",
        message := specField a "message",
        severity := specField a "severity",
        isRead := coalesceV (coalesceV (coalesceV (specField a "is_read")
          (specField a "isRead")) (specField a "read")) (.bool false),
        isSnoozed := coalesceV (coalesceV (coalesceV (specField a "is_snoozed")
          (specField a "isSnoozed")) (specField a "snoozed")) (.bool false),
        createdAt := coalesceV (coalesceV (specField a "created_at")
          (specField a "createdAt")) (specField a "created_at"),
        expiryTime := coalesceV (coalesceV (specField a "expiry_time")
          (specField a "expiryTime")) (specField a "expiry_time") } := by
  simp only [UserDashboard.normalizeAlert, getProp_eq_specField a _ h, coalesce_ok_ok]
  rfl

/-- The admin mapping on an item that is neither `null` nor `undefined`. -/
theorem adminNormalizeAlert_ok (a : JSValue) (h : a.isNullish = false) :
    AlertList.normalizeAlert a = .ok
      { _id := coalesceV (coalesceV (coalesceV (specField a "id") (specField a "_id"))
          (specField a "pk")) (specField a "uuid"),
        title := specField a "title",
        message := specField a "message",
        severity := specField a "severity",
        visibilityType := coalesceV (coalesceV (specField a "visibility_type")
          (specField a "visibilityType")) (specField a "visibility"),
        isActive := coalesceV (coalesceV (coalesceV (specField a "is_active")
          (specField a "isActive")) (specField a "active")) (.bool false),
        expiryTime := coalesceV (coalesceV (specField a "expiry_time")
          (specField a "expiryTime")) (specField a "expire_at") } := by
  simp only [AlertList.normalizeAlert, getProp_eq_specField a _ h, coalesce_ok_ok]
  rfl

theorem userNormalizeAlert_nullish (a : JSValue) (h : a.isNullish = true) :
    UserDashboard.normalizeAlert a = .error typeError := by
  cases a <;> simp_all [JSValue.isNullish] <;> rfl

theorem adminNormalizeAlert_nullish (a : JSValue) (h : a.isNullish = true) :
    AlertList.normalizeAlert a = .error typeError := by
  cases a <;> simp_all [JSValue.isNullish] <;> rfl

/-- C1. List extraction, in the user dashboard and in the admin alert list,
never throws and returns the first match of the precedence chain of the
specification: the payload itself if it is an array, else its `data` field,
else its `results` field, else `data.results`, else the empty list; this
holds for every payload, `null` and `undefined` included. -/
theorem extractList_eq_specExtractList (payload : JSValue) :
    UserDashboard.extractList payload = .ok (specExtractList payload) ∧
    AlertList.extractList payload = .ok (specExtractList payload) :=
  ⟨userExtractList_eq payload, adminExtractList_eq payload⟩

theorem nullToUndefined_idem (v : JSValue) :
    nullToUndefined (nullToUndefined v) = nullToUndefined v := by
  cases v <;> rfl

theorem flag_fixed (x : JSValue) :
    coalesceV (nullToUndefined (coalesceV x (.bool false))) (.bool false) =
      coalesceV x (.bool false) := by
  cases x <;> rfl

theorem userRenormalize_eq (a : JSValue) :
    UserDashboard.renormalize a =
      (UserDashboard.normalizeAlert a).map UserDashboard.Alert.dropNull := by
  by_cases h : a.isNullish = true
  · simp [UserDashboard.renormalize, userNormalizeAlert_nullish a h, bind, Except.bind,
      Except.map]
  · have h' : a.isNullish = false := by simpa using h
    simp only [UserDashboard.renormalize, userNormalizeAlert_ok a h', bind, Except.bind,
      Except.map]
    rw [userNormalizeAlert_ok _ (by rfl)]
    simp [UserDashboard.Alert.toJS, UserDashboard.Alert.dropNull, specField, List.lookup,
      coalesceV_undefined_left, coalesceV_undefined_right, nullToUndefined_idem, flag_fixed]

theorem adminRenormalize_eq (a : JSValue) :
    AlertList.renormalize a =
      (AlertList.normalizeAlert a).map AlertList.Alert.dropNull := by
  by_cases h : a.isNullish = true
  · simp [AlertList.renormalize, adminNormalizeAlert_nullish a h, bind, Except.bind,
      Except.map]
  · have h' : a.isNullish = false := by simpa using h
    simp only [AlertList.renormalize, adminNormalizeAlert_ok a h', bind, Except.bind,
      Except.map]
    rw [adminNormalizeAlert_ok _ (by rfl)]
    simp [AlertList.Alert.toJS, AlertList.Alert.dropNull, specField, List.lookup,
      coalesceV_undefined_left, coalesceV_undefined_right, nullToUndefined_idem, flag_fixed]

theorem isNullish_false_of_getProp_ok (a : JSValue) (k : String) (v : JSValue)
    (h : a.getProp k = .ok v) : a.isNullish = false := by
  cases a <;> simp_all [JSValue.getProp, JSValue.isNullish]

theorem specField_of_getProp_ok (a : JSValue) (k : String) (v : JSValue)
    (h : a.getProp k = .ok v) : specField a k = v := by
  have hn := isNullish_false_of_getProp_ok a k v h
  rw [getProp_eq_specField a k hn] at h
  exact Except.ok.inj h

/-- C2, as stated, fails: on the raw item `null` the user mapping and the
admin mapping both throw a TypeError (the read `a.id` of line 61, resp. 68),
and so does the `map` over a list that holds such an item. -/
theorem normalizeAlert_null_throws :
    UserDashboard.normalizeAlert .null = .error typeError ∧
    AlertList.normalizeAlert .null = .error typeError ∧
    UserDashboard.normalizeAlert .undefined = .error typeError ∧
    AlertList.normalizeAlert .undefined = .error typeError ∧
    UserDashboard.normalizeList (.arr [.obj [("id", .num 1)], .null]) = .error typeError ∧
    AlertList.normalizeList (.arr [.obj [("id", .num 1)], .null]) = .error typeError :=
  ⟨rfl, rfl, rfl, rfl, rfl, rfl⟩

/-- C2, amended: normalising a raw item to an Alert returns a record exactly
when the item is neither `null` nor `undefined`; non-object values (booleans,
numbers, strings, arrays) are mapped without throwing, in the user dashboard
and in the admin list alike. -/
theorem normalizeAlert_returns_iff (a : JSValue) :
    ((∃ r, UserDashboard.normalizeAlert a = .ok r) ↔ a.isNullish = false) ∧
    ((∃ r, AlertList.normalizeAlert a = .ok r) ↔ a.isNullish = false) := by
  by_cases h : a.isNullish = true
  · simp [userNormalizeAlert_nullish a h, adminNormalizeAlert_nullish a h, h]
  · have h' : a.isNullish = false := by simpa using h
    simp [userNormalizeAlert_ok a h', adminNormalizeAlert_ok a h', h']

/-- C3, as stated, fails: the raw item `{uuid: null}` is normalised to a
record whose `_id` is `null`, and normalising that record again gives `_id`
`undefined`; the same happens to `expiryTime` of the admin mapping on
`{expire_at: null}`. -/
theorem renormalize_null_alias_differs :
    UserDashboard.normalizeAlert (.obj [("uuid", .null)]) =
      .ok ⟨.null, .undefined, .undefined, .undefined, .bool false, .bool false,
        .undefined, .undefined⟩ ∧
    UserDashboard.renormalize (.obj [("uuid", .null)]) =
      .ok ⟨.undefined, .undefined, .undefined, .undefined, .bool false, .bool false,
        .undefined, .undefined⟩ ∧
    UserDashboard.renormalize (.obj [("uuid", .null)]) ≠
      UserDashboard.normalizeAlert (.obj [("uuid", .null)]) ∧
    AlertList.normalizeAlert (.obj [("expire_at", .null)]) =
      .ok ⟨.undefined, .undefined, .undefined, .undefined, .undefined, .bool false, .null⟩ ∧
    AlertList.renormalize (.obj [("expire_at", .null)]) =
      .ok ⟨.undefined, .undefined, .undefined, .undefined, .undefined, .bool false,
        .undefined⟩ ∧
    AlertList.renormalize (.obj [("expire_at", .null)]) ≠
      AlertList.normalizeAlert (.obj [("expire_at", .null)]) := by
  refine ⟨rfl, rfl, ?_, rfl, rfl, ?_⟩
  · intro h
    have h1 : UserDashboard.renormalize (.obj [("uuid", .null)]) =
        .ok ⟨.undefined, .undefined, .undefined, .undefined, .bool false, .bool false,
          .undefined, .undefined⟩ := rfl
    have h2 : UserDashboard.normalizeAlert (.obj [("uuid", .null)]) =
        .ok ⟨.null, .undefined, .undefined, .undefined, .bool false, .bool false,
          .undefined, .undefined⟩ := rfl
    rw [h1, h2] at h
    simp at h
  · intro h
    have h1 : AlertList.renormalize (.obj [("expire_at", .null)]) =
        .ok ⟨.undefined, .undefined, .undefined, .undefined, .undefined, .bool false,
          .undefined⟩ := rfl
    have h2 : AlertList.normalizeAlert (.obj [("expire_at", .null)]) =
        .ok ⟨.undefined, .undefined, .undefined, .undefined, .undefined, .bool false,
          .null⟩ := rfl
    rw [h1, h2] at h
    simp at h

/-- C3, amended: normalising the result of the alert mapping a second time
yields the first record with a `null` in `_id`, `createdAt` or `expiryTime`
(admin list: `_id`, `visibilityType` or `expiryTime`) replaced by `undefined`
and every other field unchanged; so the record is a fixed point of
normalisation whenever none of those three fields is `null`. -/
theorem renormalize_eq_dropNull (a : JSValue) :
    UserDashboard.renormalize a =
      (UserDashboard.normalizeAlert a).map UserDashboard.Alert.dropNull ∧
    AlertList.renormalize a =
      (AlertList.normalizeAlert a).map AlertList.Alert.dropNull ∧
    (∀ r, UserDashboard.normalizeAlert a = .ok r →
      r._id ≠ .null → r.createdAt ≠ .null → r.expiryTime ≠ .null →
      UserDashboard.normalizeAlert r.toJS = .ok r) ∧
    (∀ r, AlertList.normalizeAlert a = .ok r →
      r._id ≠ .null → r.visibilityType ≠ .null → r.expiryTime ≠ .null →
      AlertList.normalizeAlert r.toJS = .ok r) := by
  refine ⟨userRenormalize_eq a, adminRenormalize_eq a, ?_, ?_⟩
  · intro r hr h1 h2 h3
    have h := userRenormalize_eq a
    simp only [UserDashboard.renormalize, hr, bind, Except.bind, Except.map] at h
    rw [h]
    simp [UserDashboard.Alert.dropNull, nullToUndefined_of_ne_null, h1, h2, h3]
  · intro r hr h1 h2 h3
    have h := adminRenormalize_eq a
    simp only [AlertList.renormalize, hr, bind, Except.bind, Except.map] at h
    rw [h]
    simp [AlertList.Alert.dropNull, nullToUndefined_of_ne_null, h1, h2, h3]

/-- The amended C3 at the raw item `{id: "a1", is_read: true}`: its record has
no `null` field and is a fixed point of the user mapping. -/
theorem renormalize_eq_dropNull_witness :
    UserDashboard.normalizeAlert
        (UserDashboard.Alert.toJS ⟨.str "a1", .undefined, .undefined, .undefined,
          .bool true, .bool false, .undefined, .undefined⟩) =
      .ok ⟨.str "a1", .undefined, .undefined, .undefined, .bool true, .bool false,
        .undefined, .undefined⟩ :=
  (renormalize_eq_dropNull (.obj [("id", .str "a1"), ("is_read", .bool true)])).2.2.1
    ⟨.str "a1", .undefined, .undefined, .undefined, .bool true, .bool false,
      .undefined, .undefined⟩ rfl (by simp) (by simp) (by simp)

/-- C4, as stated, fails: in the raw item `{id: null, _id: 5}` the first alias
that is present and not undefined is `id`, with value `null`, but the
normalised identifier is `5`, in both mappings. -/
theorem identifier_skips_null_alias :
    specIdentifier (.obj [("id", .null), ("_id", .num 5)]) = .null ∧
    (UserDashboard.normalizeAlert (.obj [("id", .null), ("_id", .num 5)])).map
      (fun r => r._id) = .ok (.num 5) ∧
    (AlertList.normalizeAlert (.obj [("id", .null), ("_id", .num 5)])).map
      (fun r => r._id) = .ok (.num 5) :=
  ⟨rfl, rfl, rfl⟩

/-- C4, amended: for every raw item other than `null` and `undefined`, the
normalised identifier is the value of the first of the aliases `id`, `_id`,
`pk`, `uuid`, tried in that order, that is neither `undefined` nor `null`, and
the value of `uuid` (undefined when absent) when there is no such alias. -/
theorem normalized_id_eq_coalesceChain (a : JSValue) (h : a.isNullish = false) :
    (∃ r, UserDashboard.normalizeAlert a = .ok r ∧
      r._id = coalesceChain [specField a "id", specField a "_id", specField a "pk",
        specField a "uuid"]) ∧
    (∃ r, AlertList.normalizeAlert a = .ok r ∧
      r._id = coalesceChain [specField a "id", specField a "_id", specField a "pk",
        specField a "uuid"]) := by
  have key : coalesceV (coalesceV (coalesceV (specField a "id") (specField a "_id"))
      (specField a "pk")) (specField a "uuid") =
      coalesceChain [specField a "id", specField a "_id", specField a "pk",
        specField a "uuid"] := by
    simp only [coalesceChain, coalesceV]
    by_cases h1 : (specField a "id").isNullish = true
    · by_cases h2 : (specField a "_id").isNullish = true
      · by_cases h3 : (specField a "pk").isNullish = true <;> simp [h1, h2, h3]
      · simp [h1, h2]
    · simp [h1]
  exact ⟨⟨_, userNormalizeAlert_ok a h, key⟩, ⟨_, adminNormalizeAlert_ok a h, key⟩⟩

/-- The amended C4 at the raw item `{id: null, _id: 5}`: the identifier is
`5`. -/
theorem normalized_id_eq_coalesceChain_witness :
    (∃ r, UserDashboard.normalizeAlert (.obj [("id", .null), ("_id", .num 5)]) = .ok r ∧
      r._id = coalesceChain [.null, .num 5, .undefined, .undefined]) ∧
    (∃ r, AlertList.normalizeAlert (.obj [("id", .null), ("_id", .num 5)]) = .ok r ∧
      r._id = coalesceChain [.null, .num 5, .undefined, .undefined]) :=
  normalized_id_eq_coalesceChain (.obj [("id", .null), ("_id", .num 5)]) rfl

/-- C5. For every raw item in which none of the aliases of a boolean flag is
present (each of them reads as `undefined`), the mapping returns an alert
whose flag is `false`: `isRead` (aliases `is_read`, `isRead`, `read`) and
`isSnoozed` (aliases `is_snoozed`, `isSnoozed`, `snoozed`) in the user
dashboard, `isActive` (aliases `is_active`, `isActive`, `active`) in the admin
list.  The items `null` and `undefined` have no property that could be read
(`getProp` throws on them) and are the subject of C2. -/
theorem missing_flag_defaults_false (a : JSValue) :
    (a.getProp "is_read" = .ok .undefined → a.getProp "isRead" = .ok .undefined →
      a.getProp "read" = .ok .undefined →
      ∃ r, UserDashboard.normalizeAlert a = .ok r ∧ r.isRead = .bool false) ∧
    (a.getProp "is_snoozed" = .ok .undefined → a.getProp "isSnoozed" = .ok .undefined →
      a.getProp "snoozed" = .ok .undefined →
      ∃ r, UserDashboard.normalizeAlert a = .ok r ∧ r.isSnoozed = .bool false) ∧
    (a.getProp "is_active" = .ok .undefined → a.getProp "isActive" = .ok .undefined →
      a.getProp "active" = .ok .undefined →
      ∃ r, AlertList.normalizeAlert a = .ok r ∧ r.isActive = .bool false) := by
  refine ⟨?_, ?_, ?_⟩
  · intro h1 h2 h3
    have hn := isNullish_false_of_getProp_ok a _ _ h1
    refine ⟨_, userNormalizeAlert_ok a hn, ?_⟩
    simp only [specField_of_getProp_ok a _ _ h1, specField_of_getProp_ok a _ _ h2,
      specField_of_getProp_ok a _ _ h3]
    rfl
  · intro h1 h2 h3
    have hn := isNullish_false_of_getProp_ok a _ _ h1
    refine ⟨_, userNormalizeAlert_ok a hn, ?_⟩
    simp only [specField_of_getProp_ok a _ _ h1, specField_of_getProp_ok a _ _ h2,
      specField_of_getProp_ok a _ _ h3]
    rfl
  · intro h1 h2 h3
    have hn := isNullish_false_of_getProp_ok a _ _ h1
    refine ⟨_, adminNormalizeAlert_ok a hn, ?_⟩
    simp only [specField_of_getProp_ok a _ _ h1, specField_of_getProp_ok a _ _ h2,
      specField_of_getProp_ok a _ _ h3]
    rfl

/-- C5 at the raw item `{id: "a1", title: "Disk full"}`, which carries none of
the nine flag aliases: all three flags are `false`. -/
theorem missing_flag_defaults_false_witness :
    (∃ r, UserDashboard.normalizeAlert
        (.obj [("id", .str "a1"), ("title", .str "Disk full")]) = .ok r ∧
      r.isRead = .bool false) ∧
    (∃ r, UserDashboard.normalizeAlert
        (.obj [("id", .str "a1"), ("title", .str "Disk full")]) = .ok r ∧
      r.isSnoozed = .bool false) ∧
    (∃ r, AlertList.normalizeAlert
        (.obj [("id", .str "a1"), ("title", .str "Disk full")]) = .ok r ∧
      r.isActive = .bool false) :=
  ⟨(missing_flag_defaults_false (.obj [("id", .str "a1"), ("title", .str "Disk full")])).1
      rfl rfl rfl,
   (missing_flag_defaults_false (.obj [("id", .str "a1"), ("title", .str "Disk full")])).2.1
      rfl rfl rfl,
   (missing_flag_defaults_false (.obj [("id", .str "a1"), ("title", .str "Disk full")])).2.2
      rfl rfl rfl⟩

/-- C6. For every list `L`, list extraction applied to the four supported
payload shapes `L`, `{data: L}`, `{results: L}` and `{data: {results: L}}`
returns the array `L` itself, the same items in the same order, in the user
dashboard and in the admin list. -/
theorem extractList_supported_shapes (L : List JSValue) :
    (UserDashboard.extractList (.arr L) = .ok (.arr L) ∧
     UserDashboard.extractList (.obj [("data", .arr L)]) = .ok (.arr L) ∧
     UserDashboard.extractList (.obj [("results", .arr L)]) = .ok (.arr L) ∧
     UserDashboard.extractList (.obj [("data", .obj [("results", .arr L)])]) = .ok (.arr L)) ∧
    (AlertList.extractList (.arr L) = .ok (.arr L) ∧
     AlertList.extractList (.obj [("data", .arr L)]) = .ok (.arr L) ∧
     AlertList.extractList (.obj [("results", .arr L)]) = .ok (.arr L) ∧
     AlertList.extractList (.obj [("data", .obj [("results", .arr L)])]) = .ok (.arr L)) :=
  ⟨⟨rfl, rfl, rfl, rfl⟩, ⟨rfl, rfl, rfl, rfl⟩⟩

theorem countP_set_succ {α : Type} (p : α → Bool) (l : List α) (i : Nat) (x : α)
    (hi : i < l.length) (hp : p (l.get ⟨i, hi⟩) = true) (hx : p x = false) :
    (l.set i x).countP p + 1 = l.countP p := by
  induction l generalizing i with
  | nil => simp at hi
  | cons y ys ih =>
    cases i with
    | zero =>
      simp only [List.get_eq_getElem, List.getElem_cons_zero] at hp
      simp [List.set, List.countP_cons, hp, hx]
    | succ j =>
      have hj : j < ys.length := by simpa using hi
      have hp' : p (ys.get ⟨j, hj⟩) = true := by simpa using hp
      have := ih j hj hp'
      simp only [List.set, List.countP_cons]
      omega

theorem loadAlerts_ok (s : UserDashboard.State) (fetch : Except JSValue JSValue)
    (L : List UserDashboard.Alert) (h : UserDashboard.fetchedAlerts fetch = .ok L) :
    UserDashboard.loadAlerts s fetch = { s with alerts := L, loading := false } := by
  simp [UserDashboard.loadAlerts, h]

/-- C7. In every state of the user dashboard, `unreadCount` is the number of
alerts of the current list whose `isRead` is false (the test `!a.isRead`) and
`snoozedCount` the number whose `isSnoozed` is true (the test `a.isSnoozed`);
when the flags are booleans, as the data model types them, these are the
alerts with `isRead === false` and with `isSnoozed === true`.  Both counts
are functions of the current list alone: two states with the same list have
the same counts, and after a successful load they are the counts of the list
just loaded. -/
theorem counts_computed_from_current_list (s : UserDashboard.State) :
    UserDashboard.unreadCount s = s.alerts.countP (fun a => !a.isRead.toBoolean) ∧
    UserDashboard.snoozedCount s = s.alerts.countP (fun a => a.isSnoozed.toBoolean) ∧
    ((∀ a ∈ s.alerts, a.isRead.isBoolean = true ∧ a.isSnoozed.isBoolean = true) →
      UserDashboard.unreadCount s = s.alerts.countP (fun a => a.isRead.isFalse) ∧
      UserDashboard.snoozedCount s = s.alerts.countP (fun a => a.isSnoozed.isTrue)) ∧
    (∀ s' : UserDashboard.State, s'.alerts = s.alerts →
      UserDashboard.unreadCount s' = UserDashboard.unreadCount s ∧
      UserDashboard.snoozedCount s' = UserDashboard.snoozedCount s) ∧
    (∀ fetch L, UserDashboard.fetchedAlerts fetch = .ok L →
      UserDashboard.unreadCount (UserDashboard.loadAlerts s fetch) =
        L.countP (fun a => !a.isRead.toBoolean) ∧
      UserDashboard.snoozedCount (UserDashboard.loadAlerts s fetch) =
        L.countP (fun a => a.isSnoozed.toBoolean)) := by
  have hu : ∀ t : UserDashboard.State,
      UserDashboard.unreadCount t = t.alerts.countP (fun a => !a.isRead.toBoolean) := by
    intro t
    simp [UserDashboard.unreadCount, UserDashboard.safeAlerts, List.countP_eq_length_filter]
  have hs : ∀ t : UserDashboard.State,
      UserDashboard.snoozedCount t = t.alerts.countP (fun a => a.isSnoozed.toBoolean) := by
    intro t
    simp [UserDashboard.snoozedCount, UserDashboard.safeAlerts, List.countP_eq_length_filter]
  refine ⟨hu s, hs s, ?_, ?_, ?_⟩
  · intro hb
    rw [hu s, hs s]
    constructor
    · apply List.countP_congr
      intro a ha
      have h1 := (hb a ha).1
      generalize a.isRead = v at h1
      cases v with
      | bool b => cases b <;> simp [JSValue.toBoolean, JSValue.isFalse]
      | _ => simp [JSValue.isBoolean] at h1
    · apply List.countP_congr
      intro a ha
      have h2 := (hb a ha).2
      generalize a.isSnoozed = v at h2
      cases v with
      | bool b => cases b <;> simp [JSValue.toBoolean, JSValue.isTrue]
      | _ => simp [JSValue.isBoolean] at h2
  · intro s' h
    rw [hu s', hs s', hu s, hs s, h]
    exact ⟨rfl, rfl⟩
  · intro fetch L h
    rw [hu, hs, loadAlerts_ok s fetch L h]
    exact ⟨rfl, rfl⟩

/-- C7 at the state holding one unread alert and one alert that is read and
snoozed, all flags boolean: one alert has `isRead === false` and one has
`isSnoozed === true`. -/
theorem counts_computed_from_current_list_witness :
    UserDashboard.unreadCount
        ⟨[⟨.str "a1", .undefined, .undefined, .undefined, .bool false, .bool false,
            .undefined, .undefined⟩,
          ⟨.str "a2", .undefined, .undefined, .undefined, .bool true, .bool true,
            .undefined, .undefined⟩], false, none⟩ =
      List.countP (fun a => a.isRead.isFalse)
        [(⟨.str "a1", .undefined, .undefined, .undefined, .bool false, .bool false,
            .undefined, .undefined⟩ : UserDashboard.Alert),
          ⟨.str "a2", .undefined, .undefined, .undefined, .bool true, .bool true,
            .undefined, .undefined⟩] ∧
    UserDashboard.snoozedCount
        ⟨[⟨.str "a1", .undefined, .undefined, .undefined, .bool false, .bool false,
            .undefined, .undefined⟩,
          ⟨.str "a2", .undefined, .undefined, .undefined, .bool true, .bool true,
            .undefined, .undefined⟩], false, none⟩ =
      List.countP (fun a => a.isSnoozed.isTrue)
        [(⟨.str "a1", .undefined, .undefined, .undefined, .bool false, .bool false,
            .undefined, .undefined⟩ : UserDashboard.Alert),
          ⟨.str "a2", .undefined, .undefined, .undefined, .bool true, .bool true,
            .undefined, .undefined⟩] :=
  (counts_computed_from_current_list
    ⟨[⟨.str "a1", .undefined, .undefined, .undefined, .bool false, .bool false,
        .undefined, .undefined⟩,
      ⟨.str "a2", .undefined, .undefined, .undefined, .bool true, .bool true,
        .undefined, .undefined⟩], false, none⟩).2.2.1
    (by
      intro a ha
      simp only [List.mem_cons, List.mem_singleton, List.not_mem_nil, or_false] at ha
      rcases ha with rfl | rfl <;> exact ⟨rfl, rfl⟩)

/-- C8. For every alert list holding, at position `i`, an alert whose `isRead`
is false: if `markAsRead` on that alert succeeds and the reload that follows
returns the same list with only that alert's `isRead` changed to `true`, then
`unreadCount` after the action is exactly one less than before. -/
theorem markAsRead_decreases_unreadCount_by_one (s : UserDashboard.State) (i : Nat)
    (hi : i < s.alerts.length) (reply : JSValue) (fetch : Except JSValue JSValue)
    (hunread : (s.alerts.get ⟨i, hi⟩).isRead.toBoolean = false)
    (hreload : UserDashboard.fetchedAlerts fetch =
      .ok (s.alerts.set i { s.alerts.get ⟨i, hi⟩ with isRead := .bool true })) :
    UserDashboard.unreadCount
        (UserDashboard.handleMarkAsRead s (s.alerts.get ⟨i, hi⟩)._id (.ok reply) fetch) + 1 =
      UserDashboard.unreadCount s := by
  simp only [UserDashboard.handleMarkAsRead, loadAlerts_ok _ fetch _ hreload,
    UserDashboard.unreadCount, UserDashboard.safeAlerts, ← List.countP_eq_length_filter]
  apply countP_set_succ _ _ _ _ hi
  · simpa using hunread
  · rfl

/-- C8 on the scenario of the specification: the list holds the unread alert
`a1`, `markAsRead("a1")` succeeds and the reload returns
`[{id: "a1", is_read: true}]`; `unreadCount` goes from one to zero. -/
theorem markAsRead_decreases_unreadCount_by_one_witness :
    UserDashboard.unreadCount
        (UserDashboard.handleMarkAsRead
          ⟨[⟨.str "a1", .undefined, .undefined, .undefined, .bool false, .bool false,
            .undefined, .undefined⟩], false, none⟩
          (.str "a1") (.ok (.obj [("data", .obj [("success", .bool true)])]))
          (.ok (.obj [("data", .arr [.obj [("id", .str "a1"), ("is_read", .bool true)]])])))
        + 1 =
      UserDashboard.unreadCount
        ⟨[⟨.str "a1", .undefined, .undefined, .undefined, .bool false, .bool false,
          .undefined, .undefined⟩], false, none⟩ :=
  markAsRead_decreases_unreadCount_by_one
    ⟨[⟨.str "a1", .undefined, .undefined, .undefined, .bool false, .bool false,
      .undefined, .undefined⟩], false, none⟩
    0 (by decide) (.obj [("data", .obj [("success", .bool true)])])
    (.ok (.obj [("data", .arr [.obj [("id", .str "a1"), ("is_read", .bool true)]])]))
    rfl rfl

theorem lookup_filter_ne (st : List (String × String)) (k k' : String) :
    (st.filter (fun p => p.1 != k')).lookup k = if k = k' then none else st.lookup k := by
  induction st with
  | nil => simp
  | cons p ps ih =>
    obtain ⟨a, b⟩ := p
    by_cases h : a = k'
    · subst h
      by_cases hk : k = a
      · subst hk
        simpa [List.filter] using ih
      · have hk' : (k == a) = false := by simpa using hk
        simp [List.filter, List.lookup, hk', ih, hk]
    · have hne : (a != k') = true := by simpa using h
      by_cases hk : k = a
      · subst hk
        simp [List.filter, hne, List.lookup, h]
      · have hk' : (k == a) = false := by simpa using hk
        simp [List.filter, hne, List.lookup, hk', ih]

theorem getItem_removeItem (st : Storage) (k k' : String) :
    (st.removeItem k').getItem k = if k = k' then none else st.getItem k :=
  lookup_filter_ne st k k'

theorem logout_cleared (s : AuthContext.Session) :
    (AuthContext.logout s).storage.getItem "token" = none ∧
    (AuthContext.logout s).storage.getItem "user" = none ∧
    (AuthContext.logout s).token = .null ∧
    (AuthContext.logout s).user = .null := by
  refine ⟨?_, ?_, rfl, rfl⟩
  · simp [AuthContext.logout, getItem_removeItem]
  · simp [AuthContext.logout, getItem_removeItem]

theorem isNullish_false_of_toBoolean (v : JSValue) (h : v.toBoolean = true) :
    v.isNullish = false := by
  cases v <;> simp_all [JSValue.toBoolean, JSValue.isNullish]

/-- Lines 28-31 of `loadUser` never throw: every resolved response unwraps to
some value. -/
theorem unwrapUser_total (response : JSValue) :
    ∃ u, AuthContext.unwrapUser response = .ok u := by
  unfold AuthContext.unwrapUser
  simp only [optProp_eq_specField, coalesce_ok_ok, bind, Except.bind, pure, Except.pure]
  by_cases h : (coalesceV (specField (specField response "data") "data")
      (specField response "data")).toBoolean = true
  · have hn := isNullish_false_of_toBoolean _ h
    simp only [h, if_true, getProp_eq_specField _ _ hn]
    split <;> exact ⟨_, rfl⟩
  · simp only [h]
    exact ⟨_, rfl⟩

theorem responseError_of_object (b : Api.Browser) (error : JSValue)
    (h : error.isNullish = false) :
    Api.responseError b error =
      if (specField (specField error "response") "status").strictEqNum 401 then
        ({ storage := (b.storage.removeItem "token").removeItem "user", location := "/login" },
          error)
      else (b, error) := by
  simp [Api.responseError, getProp_eq_specField error _ h, optProp_eq_specField, bind,
    Except.bind]

theorem responseError_of_nullish (b : Api.Browser) (error : JSValue)
    (h : error.isNullish = true) :
    Api.responseError b error = (b, typeError) := by
  cases error <;> simp_all [JSValue.isNullish] <;> rfl

theorem login_rejected_session (stringify : JSValue → JSValue) (s : AuthContext.Session)
    (error : JSValue) :
    (AuthContext.login stringify s (.error error)).1.token = s.token ∧
    (AuthContext.login stringify s (.error error)).1.user = s.user ∧
    (AuthContext.login stringify s (.error error)).1.loading = s.loading :=
  ⟨rfl, rfl, rfl⟩

theorem tokenHasUser_mount (st : Storage) :
    AuthContext.TokenHasUser (AuthContext.mount st).session := by
  intro h
  simp [AuthContext.mount, AuthContext.init] at h

theorem userHasToken_mount (st : Storage) :
    AuthContext.UserHasToken (AuthContext.mount st).session := by
  intro h
  simp [AuthContext.mount, AuthContext.init, JSValue.toBoolean] at h

theorem login_session_cases (stringify : JSValue → JSValue) (s : AuthContext.Session)
    (post : Except JSValue JSValue)
    (he : (AuthContext.Action.login post).carriesIdentity = true) :
    ((AuthContext.login stringify s post).1.token = s.token ∧
      (AuthContext.login stringify s post).1.user = s.user ∧
      (AuthContext.login stringify s post).1.loading = s.loading) ∨
    ((AuthContext.login stringify s post).1.token.toBoolean = true ∧
      (AuthContext.login stringify s post).1.user.toBoolean = true) := by
  cases post with
  | error e => exact Or.inl (login_rejected_session stringify s e)
  | ok response =>
    cases hd : AuthContext.destructureLogin response with
    | error e =>
      left
      simp [AuthContext.login, hd]
    | ok tu =>
      obtain ⟨t, u⟩ := tu
      simp only [AuthContext.Action.carriesIdentity, hd, Bool.and_eq_true] at he
      right
      simp [AuthContext.login, hd, he.1, he.2]

theorem loadUser_cases (s : AuthContext.Session) (fetch : Except JSValue JSValue)
    (he : (AuthContext.Action.settle fetch).carriesIdentity = true) :
    (AuthContext.loadUser s fetch).token.toBoolean = false ∧
      (AuthContext.loadUser s fetch).user.toBoolean = false ∨
    (∃ response, fetch = .ok response) ∧
      (AuthContext.loadUser s fetch).token = s.token ∧
      (AuthContext.loadUser s fetch).user.toBoolean = true := by
  cases fetch with
  | error e =>
    left
    exact ⟨rfl, rfl⟩
  | ok response =>
    cases hu : AuthContext.unwrapUser response with
    | error e =>
      left
      simp [AuthContext.loadUser, bind, Except.bind, hu, AuthContext.logout, JSValue.toBoolean]
    | ok u =>
      simp only [AuthContext.Action.carriesIdentity, hu] at he
      right
      refine ⟨⟨response, rfl⟩, ?_, ?_⟩ <;>
        simp [AuthContext.loadUser, bind, Except.bind, hu, he]

theorem tokenHasUser_advance (stringify : JSValue → JSValue) (p : AuthContext.Provider)
    (a : AuthContext.Action) (hp : AuthContext.TokenHasUser p.session)
    (he : a.carriesIdentity = true) :
    AuthContext.TokenHasUser (AuthContext.advance stringify p a).session := by
  cases a with
  | effect =>
    by_cases ht : p.session.token.toBoolean = true
    · simpa [AuthContext.advance, ht] using hp
    · intro _ h
      simp [AuthContext.advance, ht] at h
  | settle fetch =>
    cases hn : p.inFlight with
    | zero => simpa [AuthContext.advance, hn] using hp
    | succ n =>
      simp only [AuthContext.advance, hn]
      rcases loadUser_cases p.session fetch he with h | h
      · intro _ ht
        rw [h.1] at ht
        cases ht
      · intro _ _
        exact h.2.2
  | login post =>
    simp only [AuthContext.advance]
    rcases login_session_cases stringify p.session post he with h | h
    · intro hl ht
      rw [h.1] at ht
      rw [h.2.2] at hl
      rw [h.2.1]
      exact hp hl ht
    · intro _ _
      exact h.2
  | logout =>
    intro _ ht
    simp [AuthContext.advance, AuthContext.logout, JSValue.toBoolean] at ht

theorem userHasToken_advance (stringify : JSValue → JSValue) (p : AuthContext.Provider)
    (a : AuthContext.Action) (hp : AuthContext.UserHasToken p.session)
    (he : a.carriesIdentity = true)
    (ht : AuthContext.timely stringify p [a] = true) :
    AuthContext.UserHasToken (AuthContext.advance stringify p a).session := by
  cases a with
  | effect =>
    by_cases htok : p.session.token.toBoolean = true
    · simpa [AuthContext.advance, htok] using hp
    · intro h
      simp only [AuthContext.advance, htok] at h
      exact absurd (hp h) htok
  | settle fetch =>
    cases hn : p.inFlight with
    | zero => simpa [AuthContext.advance, hn] using hp
    | succ n =>
      simp only [AuthContext.advance, hn]
      rcases loadUser_cases p.session fetch he with h | h
      · intro hu
        rw [h.2] at hu
        cases hu
      · obtain ⟨⟨response, hr⟩, htk, _⟩ := h
        subst hr
        intro _
        rw [htk]
        simpa [AuthContext.timely, hn] using ht
  | login post =>
    simp only [AuthContext.advance]
    rcases login_session_cases stringify p.session post he with h | h
    · intro hu
      rw [h.2.1] at hu
      rw [h.1]
      exact hp hu
    · intro _
      exact h.1
  | logout =>
    intro hu
    simp [AuthContext.advance, AuthContext.logout, JSValue.toBoolean] at hu

theorem tokenHasUser_play (stringify : JSValue → JSValue) (actions : List AuthContext.Action) :
    ∀ p : AuthContext.Provider, AuthContext.TokenHasUser p.session →
      (∀ a ∈ actions, a.carriesIdentity = true) →
      AuthContext.TokenHasUser (AuthContext.play stringify p actions).session := by
  induction actions with
  | nil => intro p hp _; exact hp
  | cons a rest ih =>
    intro p hp he
    exact ih _ (tokenHasUser_advance stringify p a hp (he a (List.mem_cons_self a rest)))
      (fun a' ha' => he a' (List.mem_cons_of_mem a ha'))

theorem userHasToken_play (stringify : JSValue → JSValue) (actions : List AuthContext.Action) :
    ∀ p : AuthContext.Provider, AuthContext.UserHasToken p.session →
      (∀ a ∈ actions, a.carriesIdentity = true) →
      AuthContext.timely stringify p actions = true →
      AuthContext.UserHasToken (AuthContext.play stringify p actions).session := by
  induction actions with
  | nil => intro p hp _ _; exact hp
  | cons a rest ih =>
    intro p hp he ht
    have ht' : AuthContext.timely stringify p [a] = true ∧
        AuthContext.timely stringify (AuthContext.advance stringify p a) rest = true := by
      simpa [AuthContext.timely] using ht
    exact ih _
      (userHasToken_advance stringify p a hp (he a (List.mem_cons_self a rest)) ht'.1)
      (fun a' ha' => he a' (List.mem_cons_of_mem a ha')) ht'.2

/-- C9, as stated, fails, in four reachable states.  On the first render
with a persisted token the token is present and the user is not.  After a
restore whose identity request resolves with the body `null` the token is
still present, the user is `null`, and `loading` is cleared.  After a login
whose response carries a token and no user the token is present and the user
is `undefined`.  And when a login is followed by a logout while the identity
request issued after the login is still in flight, that request resolves
into a session whose token is `null`: the user is present and the token is
not. -/
theorem token_user_mismatch_reachable :
    ((AuthContext.play (fun _ => .undefined) (AuthContext.mount [("token", "t")])
        [.effect]).session.token = .str "t" ∧
      (AuthContext.play (fun _ => .undefined) (AuthContext.mount [("token", "t")])
        [.effect]).session.user = .null) ∧
    ((AuthContext.play (fun _ => .undefined) (AuthContext.mount [("token", "t")])
        [.effect, .settle (.ok (.obj [("data", .null)]))]).session.token = .str "t" ∧
      (AuthContext.play (fun _ => .undefined) (AuthContext.mount [("token", "t")])
        [.effect, .settle (.ok (.obj [("data", .null)]))]).session.user = .null ∧
      (AuthContext.play (fun _ => .undefined) (AuthContext.mount [("token", "t")])
        [.effect, .settle (.ok (.obj [("data", .null)]))]).session.loading = false) ∧
    ((AuthContext.play (fun _ => .undefined) (AuthContext.mount [])
        [.effect,
          .login (.ok (.obj [("data", .obj [("data", .obj [("token", .str "t")])])]))]
        ).session.token = .str "t" ∧
      (AuthContext.play (fun _ => .undefined) (AuthContext.mount [])
        [.effect,
          .login (.ok (.obj [("data", .obj [("data", .obj [("token", .str "t")])])]))]
        ).session.user = .undefined ∧
      (AuthContext.play (fun _ => .undefined) (AuthContext.mount [])
        [.effect,
          .login (.ok (.obj [("data", .obj [("data", .obj [("token", .str "t")])])]))]
        ).session.loading = false) ∧
    ((AuthContext.play (fun _ => .str "{}") (AuthContext.mount [])
        [.effect,
          .login (.ok (.obj [("data", .obj [("data",
            .obj [("token", .str "u"), ("user", .obj [("id", .num 2)])])])])),
          .effect, .logout, .effect,
          .settle (.ok (.obj [("data", .obj [("id", .num 2)])]))]).session.user = .obj [("id", .num 2)] ∧
      (AuthContext.play (fun _ => .str "{}") (AuthContext.mount [])
        [.effect,
          .login (.ok (.obj [("data", .obj [("data",
            .obj [("token", .str "u"), ("user", .obj [("id", .num 2)])])])])),
          .effect, .logout, .effect,
          .settle (.ok (.obj [("data", .obj [("id", .num 2)])]))]).session.token = .null ∧
      (AuthContext.play (fun _ => .str "{}") (AuthContext.mount [])
        [.effect,
          .login (.ok (.obj [("data", .obj [("data",
            .obj [("token", .str "u"), ("user", .obj [("id", .num 2)])])])])),
          .effect, .logout, .effect,
          .settle (.ok (.obj [("data", .obj [("id", .num 2)])]))]).session.loading = false) :=
  ⟨⟨rfl, rfl⟩, ⟨rfl, rfl, rfl⟩, ⟨rfl, rfl, rfl⟩, ⟨rfl, rfl, rfl⟩⟩

/-- C9, amended: in every session state reachable from the initial state
through restore (the issue of its identity request and the settlement of that
request being separate steps), login and logout, provided every identity
request that resolves unwraps to a present user and every login response
that `login` accepts carries a present token and a present user: once
restoration has completed (`loading` is cleared) a present token always comes
with a present user; and when no identity request resolves after the token
has been cleared by a logout, a present user always comes with a present
token, so that with `loading` cleared the token is present if and only if the
user is present. -/
theorem token_iff_user_when_settled_in_time (stringify : JSValue → JSValue) (st : Storage)
    (actions : List AuthContext.Action) (h : ∀ a ∈ actions, a.carriesIdentity = true) :
    ((AuthContext.play stringify (AuthContext.mount st) actions).session.loading = false →
      (AuthContext.play stringify (AuthContext.mount st) actions).session.token.toBoolean = true →
      (AuthContext.play stringify (AuthContext.mount st) actions).session.user.toBoolean = true) ∧
    (AuthContext.timely stringify (AuthContext.mount st) actions = true →
      ((AuthContext.play stringify (AuthContext.mount st) actions).session.user.toBoolean = true →
        (AuthContext.play stringify (AuthContext.mount st) actions).session.token.toBoolean
          = true) ∧
      ((AuthContext.play stringify (AuthContext.mount st) actions).session.loading = false →
        ((AuthContext.play stringify (AuthContext.mount st) actions).session.token.toBoolean
            = true ↔
          (AuthContext.play stringify (AuthContext.mount st) actions).session.user.toBoolean
            = true))) := by
  have h1 := tokenHasUser_play stringify actions (AuthContext.mount st) (tokenHasUser_mount st) h
  refine ⟨h1, fun ht => ?_⟩
  have h2 := userHasToken_play stringify actions (AuthContext.mount st)
    (userHasToken_mount st) h ht
  exact ⟨h2, fun hl => ⟨h1 hl, h2⟩⟩

/-- The amended C9 on a provider that starts with the persisted token `t`,
restores the admin `{id: 1, role: "admin"}`, logs out, logs in as `{id: 2}`
with token `u` and lets the identity request issued after the login resolve:
every request settles while the token is present, restoration has completed,
and the token is present if and only if the user is. -/
theorem token_iff_user_when_settled_in_time_witness :
    (AuthContext.play (fun _ => .str "{}") (AuthContext.mount [("token", "t")])
        [.effect,
          .settle (.ok (.obj [("data", .obj [("id", .num 1), ("role", .str "admin")])])),
          .logout, .effect,
          .login (.ok (.obj [("data", .obj [("data",
            .obj [("token", .str "u"), ("user", .obj [("id", .num 2)])])])])),
          .effect,
          .settle (.ok (.obj [("data", .obj [("id", .num 2)])]))]).session.loading = false ∧
    ((AuthContext.play (fun _ => .str "{}") (AuthContext.mount [("token", "t")])
        [.effect,
          .settle (.ok (.obj [("data", .obj [("id", .num 1), ("role", .str "admin")])])),
          .logout, .effect,
          .login (.ok (.obj [("data", .obj [("data",
            .obj [("token", .str "u"), ("user", .obj [("id", .num 2)])])])])),
          .effect,
          .settle (.ok (.obj [("data", .obj [("id", .num 2)])]))]).session.token.toBoolean = true ↔
      (AuthContext.play (fun _ => .str "{}") (AuthContext.mount [("token", "t")])
        [.effect,
          .settle (.ok (.obj [("data", .obj [("id", .num 1), ("role", .str "admin")])])),
          .logout, .effect,
          .login (.ok (.obj [("data", .obj [("data",
            .obj [("token", .str "u"), ("user", .obj [("id", .num 2)])])])])),
          .effect,
          .settle (.ok (.obj [("data", .obj [("id", .num 2)])]))]).session.user.toBoolean = true) :=
  ⟨rfl,
   ((token_iff_user_when_settled_in_time (fun _ => .str "{}") [("token", "t")]
      [.effect,
          .settle (.ok (.obj [("data", .obj [("id", .num 1), ("role", .str "admin")])])),
          .logout, .effect,
          .login (.ok (.obj [("data", .obj [("data",
            .obj [("token", .str "u"), ("user", .obj [("id", .num 2)])])])])),
          .effect,
          .settle (.ok (.obj [("data", .obj [("id", .num 2)])]))]
      (by
        intro a ha
        simp only [List.mem_cons, List.mem_singleton, List.not_mem_nil, or_false] at ha
        rcases ha with rfl | rfl | rfl | rfl | rfl | rfl | rfl <;> rfl)).2 rfl).2 rfl⟩

/-- C10, as stated, fails for a malformed payload.  With the token `t` and a
user persisted, an identity request that resolves with an HTML page as its
body, or with the body `null`, is not treated as a failure: the persisted
token and user stay, the in-memory token stays, and the user becomes the
string, resp. `null`. -/
theorem restore_malformed_payload_keeps_session :
    (AuthContext.restore (AuthContext.init [("token", "t"), ("user", "{}")])
        (.ok (.obj [("data", .str "<html>")]))).storage = [("token", "t"), ("user", "{}")] ∧
    (AuthContext.restore (AuthContext.init [("token", "t"), ("user", "{}")])
        (.ok (.obj [("data", .str "<html>")]))).token = .str "t" ∧
    (AuthContext.restore (AuthContext.init [("token", "t"), ("user", "{}")])
        (.ok (.obj [("data", .str "<html>")]))).user = .str "<html>" ∧
    (AuthContext.restore (AuthContext.init [("token", "t"), ("user", "{}")])
        (.ok (.obj [("data", .null)]))).storage = [("token", "t"), ("user", "{}")] ∧
    (AuthContext.restore (AuthContext.init [("token", "t"), ("user", "{}")])
        (.ok (.obj [("data", .null)]))).token = .str "t" ∧
    (AuthContext.restore (AuthContext.init [("token", "t"), ("user", "{}")])
        (.ok (.obj [("data", .null)]))).user = .null :=
  ⟨rfl, rfl, rfl, rfl, rfl, rfl⟩

/-- C10, amended: for every restore attempt with a present token, if the
identity request is rejected (a network error or an error status, whatever
the error thrown), the persisted token and user are removed, the in-memory
token and user become `null` and `loading` is cleared; a request that
resolves is never treated as a failure, whatever its payload: the persisted
values and the token are kept and the user becomes the unwrapped payload. -/
theorem restore_rejected_clears_session (s : AuthContext.Session)
    (h : s.token.toBoolean = true) :
    (∀ error : JSValue,
      (AuthContext.restore s (.error error)).storage.getItem "token" = none ∧
      (AuthContext.restore s (.error error)).storage.getItem "user" = none ∧
      (AuthContext.restore s (.error error)).token = .null ∧
      (AuthContext.restore s (.error error)).user = .null ∧
      (AuthContext.restore s (.error error)).loading = false) ∧
    (∀ response : JSValue, ∃ u, AuthContext.unwrapUser response = .ok u ∧
      AuthContext.restore s (.ok response) = { s with user := u, loading := false }) := by
  constructor
  · intro error
    have hr : AuthContext.restore s (.error error) =
        { AuthContext.logout s with loading := false } := by
      simp [AuthContext.restore, h, AuthContext.loadUser, bind, Except.bind]
    rw [hr]
    have hc := logout_cleared s
    exact ⟨hc.1, hc.2.1, rfl, rfl, rfl⟩
  · intro response
    obtain ⟨u, hu⟩ := unwrapUser_total response
    refine ⟨u, hu, ?_⟩
    simp [AuthContext.restore, h, AuthContext.loadUser, bind, Except.bind, hu]

/-- The amended C10 on the first render with the token `t` and a user
persisted, the identity request rejected with status 401: everything is
cleared. -/
theorem restore_rejected_clears_session_witness :
    (AuthContext.restore (AuthContext.init [("token", "t"), ("user", "{}")])
        (.error (.obj [("response", .obj [("status", .num 401)])]))).storage.getItem "token"
      = none ∧
    (AuthContext.restore (AuthContext.init [("token", "t"), ("user", "{}")])
        (.error (.obj [("response", .obj [("status", .num 401)])]))).storage.getItem "user"
      = none ∧
    (AuthContext.restore (AuthContext.init [("token", "t"), ("user", "{}")])
        (.error (.obj [("response", .obj [("status", .num 401)])]))).token = .null ∧
    (AuthContext.restore (AuthContext.init [("token", "t"), ("user", "{}")])
        (.error (.obj [("response", .obj [("status", .num 401)])]))).user = .null ∧
    (AuthContext.restore (AuthContext.init [("token", "t"), ("user", "{}")])
        (.error (.obj [("response", .obj [("status", .num 401)])]))).loading = false :=
  (restore_rejected_clears_session (AuthContext.init [("token", "t"), ("user", "{}")])
    rfl).1 (.obj [("response", .obj [("status", .num 401)])])

theorem getItem_setItem (st : Storage) (k v k' : String) :
    (st.setItem k v).getItem k' = if k' = k then some v else st.getItem k' := by
  by_cases h : k' = k
  · subst h
    simp [Storage.setItem, Storage.getItem, List.lookup]
  · have hb : (k' == k) = false := by simpa using h
    have := lookup_filter_ne st k' k
    simp only [h, if_false] at this
    simp [Storage.setItem, Storage.getItem, List.lookup, hb, h, this]

theorem destructureLogin_ok (response : JSValue)
    (h : (specField (specField response "data") "data").isNullish = false) :
    AuthContext.destructureLogin response =
      .ok (specField (specField (specField response "data") "data") "token",
           specField (specField (specField response "data") "data") "user") := by
  have h1 : (specField response "data").isNullish = false := by
    cases hd : specField response "data" <;> simp_all [specField, JSValue.isNullish]
  have h0 : response.isNullish = false := by
    cases response <;> simp_all [specField, JSValue.isNullish]
  simp [AuthContext.destructureLogin, getProp_eq_specField response _ h0,
    getProp_eq_specField _ _ h1, getProp_eq_specField _ _ h, bind, Except.bind, pure,
    Except.pure]

theorem isAdmin_eq (s : AuthContext.Session) :
    AuthContext.isAdmin s = .ok ((specField s.user "role").strictEqStr "admin") := by
  simp only [AuthContext.isAdmin, optProp_eq_specField]
  rfl

theorem redirectTarget_eq (before : AuthContext.Session) (user : JSValue) :
    Login.redirectTarget before user =
      .ok (if (specField user "role").strictEqStr "admin" ||
              (specField before.user "role").strictEqStr "admin"
           then "/admin/dashboard" else "/dashboard") := by
  have hu : specField (coalesceV user .null) "role" = specField user "role" := by
    cases user <;> rfl
  simp only [Login.redirectTarget, coalesce_ok_ok, optProp_eq_specField, isAdmin_eq, bind,
    Except.bind, hu]
  by_cases h1 : (specField user "role").strictEqStr "admin" = true
  · simp [h1, pure, Except.pure]
  · by_cases h2 : (specField before.user "role").strictEqStr "admin" = true
    · simp [h1, h2, pure, Except.pure]
    · simp [h1, h2, pure, Except.pure]

/-- C11 is broken by the code on this input.  An admin whose session was
restored opens the login screen and logs in as a user whose role is `user`:
`login` returns that user, and the screen navigates to `/admin/dashboard`,
not to `/dashboard`, because the fallback `|| isAdmin()` of line 47 reads the
admin of the session before the call, although line 45 announces that the
returned user decides. -/
theorem login_redirect_reads_previous_admin :
    (AuthContext.run (fun _ => .str "{}") (AuthContext.init [("token", "t")])
        [.restore (.ok (.obj [("data", .obj [("role", .str "admin")])]))]).user
      = .obj [("role", .str "admin")] ∧
    (AuthContext.login (fun _ => .str "{}")
        (AuthContext.run (fun _ => .str "{}") (AuthContext.init [("token", "t")])
          [.restore (.ok (.obj [("data", .obj [("role", .str "admin")])]))])
        (.ok (.obj [("data", .obj [("data",
          .obj [("token", .str "u"), ("user", .obj [("role", .str "user")])])])]))).2
      = .ok (.success (.obj [("role", .str "user")])) ∧
    (Login.handleSubmit (fun _ => .str "{}")
        (AuthContext.run (fun _ => .str "{}") (AuthContext.init [("token", "t")])
          [.restore (.ok (.obj [("data", .obj [("role", .str "admin")])]))])
        ⟨.str "", false, none⟩
        (.ok (.obj [("data", .obj [("data",
          .obj [("token", .str "u"), ("user", .obj [("role", .str "user")])])])]))).2
      = .ok ⟨.str "", false, some "/admin/dashboard"⟩ :=
  ⟨rfl, rfl, rfl⟩

/-- The target of the login screen in general: after a successful login it
navigates to `/admin/dashboard` if and only if the user returned by `login`
has role `admin` or the user held by the session before the call has role
`admin`, and to `/dashboard` otherwise; so when the session before the call
held no admin (in particular when it held no user) the target is decided by
the returned user alone. -/
theorem login_redirect_target (stringify : JSValue → JSValue) (before : AuthContext.Session)
    (ui : Login.State) (post : Except JSValue JSValue) (user : JSValue)
    (h : (AuthContext.login stringify before post).2 = .ok (.success user)) :
    (Login.handleSubmit stringify before ui post).2 =
      .ok { ui with
        error := .str "",
        loading := false,
        navigated := some
          (if (specField user "role").strictEqStr "admin" ||
              (specField before.user "role").strictEqStr "admin"
           then "/admin/dashboard" else "/dashboard") } ∧
    ((specField before.user "role").strictEqStr "admin" = false →
      (Login.handleSubmit stringify before ui post).2 =
        .ok { ui with
          error := .str "",
          loading := false,
          navigated := some
            (if (specField user "role").strictEqStr "admin"
             then "/admin/dashboard" else "/dashboard") }) := by
  have key : (Login.handleSubmit stringify before ui post).2 =
      .ok { ui with
        error := .str "",
        loading := false,
        navigated := some
          (if (specField user "role").strictEqStr "admin" ||
              (specField before.user "role").strictEqStr "admin"
           then "/admin/dashboard" else "/dashboard") } := by
    rcases hl : AuthContext.login stringify before post with ⟨after, res⟩
    rw [hl] at h
    simp only at h
    subst h
    simp only [Login.handleSubmit, hl, redirectTarget_eq]
  refine ⟨key, ?_⟩
  intro hb
  rw [key, hb, Bool.or_false]

/-- On an anonymous session the login returns an admin and the screen
navigates to `/admin/dashboard`. -/
theorem login_redirect_target_witness :
    (Login.handleSubmit (fun _ => .str "{}") (AuthContext.init []) ⟨.str "", false, none⟩
        (.ok (.obj [("data", .obj [("data",
          .obj [("token", .str "u"), ("user", .obj [("role", .str "admin")])])])]))).2 =
      .ok ⟨.str "", false, some "/admin/dashboard"⟩ :=
  (login_redirect_target (fun _ => .str "{}") (AuthContext.init []) ⟨.str "", false, none⟩
    (.ok (.obj [("data", .obj [("data",
      .obj [("token", .str "u"), ("user", .obj [("role", .str "admin")])])])]))
    (.obj [("role", .str "admin")]) rfl).1

theorem login_ok (stringify : JSValue → JSValue) (s : AuthContext.Session)
    (response token user : JSValue)
    (h : AuthContext.destructureLogin response = .ok (token, user)) :
    AuthContext.login stringify s (.ok response) =
      ({ s with storage := (s.storage.setItem "token" token.toStr).setItem "user"
                  (stringify user).toStr,
                token := token,
                user := user },
       .ok (.success user)) := by
  simp [AuthContext.login, bind, Except.bind, h]

/-- C12. For every login whose transport call succeeds with a response that
carries a token and a user at `response.data.data`, `login` writes that token
(as the string `setItem` makes of it, the token itself when it is a string)
and that user (serialised by `JSON.stringify`) to persisted storage, sets the
in-memory token and user to them, and returns a success result carrying
exactly that user. -/
theorem login_success_persists_and_returns_user (stringify : JSValue → JSValue)
    (s : AuthContext.Session) (response : JSValue)
    (h : (specField (specField response "data") "data").isNullish = false) :
    (AuthContext.login stringify s (.ok response)).1.storage.getItem "token" =
      some (specField (specField (specField response "data") "data") "token").toStr ∧
    (∀ t, specField (specField (specField response "data") "data") "token" = .str t →
      (AuthContext.login stringify s (.ok response)).1.storage.getItem "token" = some t) ∧
    (AuthContext.login stringify s (.ok response)).1.storage.getItem "user" =
      some (stringify (specField (specField (specField response "data") "data") "user")).toStr ∧
    (AuthContext.login stringify s (.ok response)).1.token =
      specField (specField (specField response "data") "data") "token" ∧
    (AuthContext.login stringify s (.ok response)).1.user =
      specField (specField (specField response "data") "data") "user" ∧
    (AuthContext.login stringify s (.ok response)).2 =
      .ok (.success (specField (specField (specField response "data") "data") "user")) := by
  rw [login_ok stringify s response _ _ (destructureLogin_ok response h)]
  refine ⟨?_, ?_, ?_, rfl, rfl, rfl⟩
  · simp [getItem_setItem]
  · intro t ht
    simp [getItem_setItem, ht, JSValue.toStr]
  · simp [getItem_setItem]

/-- C12 on an anonymous session and the response
`{data: {data: {token: "u", user: {id: 2}}}}`: the token `u` is persisted and
held in memory, and the user `{id: 2}` is returned. -/
theorem login_success_persists_and_returns_user_witness :
    (AuthContext.login (fun _ => .str "{}") (AuthContext.init [])
        (.ok (.obj [("data", .obj [("data",
          .obj [("token", .str "u"), ("user", .obj [("id", .num 2)])])])]))).1.storage.getItem
        "token" = some "u" ∧
    (AuthContext.login (fun _ => .str "{}") (AuthContext.init [])
        (.ok (.obj [("data", .obj [("data",
          .obj [("token", .str "u"), ("user", .obj [("id", .num 2)])])])]))).1.token
      = .str "u" ∧
    (AuthContext.login (fun _ => .str "{}") (AuthContext.init [])
        (.ok (.obj [("data", .obj [("data",
          .obj [("token", .str "u"), ("user", .obj [("id", .num 2)])])])]))).2
      = .ok (.success (.obj [("id", .num 2)])) :=
  ⟨(login_success_persists_and_returns_user (fun _ => .str "{}") (AuthContext.init [])
      (.obj [("data", .obj [("data",
        .obj [("token", .str "u"), ("user", .obj [("id", .num 2)])])])]) rfl).2.1 "u" rfl,
   (login_success_persists_and_returns_user (fun _ => .str "{}") (AuthContext.init [])
      (.obj [("data", .obj [("data",
        .obj [("token", .str "u"), ("user", .obj [("id", .num 2)])])])]) rfl).2.2.2.1,
   (login_success_persists_and_returns_user (fun _ => .str "{}") (AuthContext.init [])
      (.obj [("data", .obj [("data",
        .obj [("token", .str "u"), ("user", .obj [("id", .num 2)])])])]) rfl).2.2.2.2.2⟩

/-- C13, as stated, fails for a rejection with status 401 on a session that
has a token and a user persisted: the response handler of the transport
removes both before the `catch` block of `login` runs, so the persisted
values do not stay as they were, while the failure with the server's message
is returned and the in-memory token and user are kept. -/
theorem login_401_removes_persisted_session :
    Storage.getItem [("token", "t"), ("user", "{}")] "token" = some "t" ∧
    (AuthContext.login (fun _ => .str "{}")
        ⟨.obj [("id", .num 1)], false, .str "t", [("token", "t"), ("user", "{}")]⟩
        (.error (.obj [("response", .obj [("status", .num 401),
          ("data", .obj [("message", .str "Invalid credentials")])])]))).1.storage = [] ∧
    (AuthContext.login (fun _ => .str "{}")
        ⟨.obj [("id", .num 1)], false, .str "t", [("token", "t"), ("user", "{}")]⟩
        (.error (.obj [("response", .obj [("status", .num 401),
          ("data", .obj [("message", .str "Invalid credentials")])])]))).1.token = .str "t" ∧
    (AuthContext.login (fun _ => .str "{}")
        ⟨.obj [("id", .num 1)], false, .str "t", [("token", "t"), ("user", "{}")]⟩
        (.error (.obj [("response", .obj [("status", .num 401),
          ("data", .obj [("message", .str "Invalid credentials")])])]))).2
      = .ok (.failure (.str "Invalid credentials")) :=
  ⟨rfl, rfl, rfl, rfl⟩

/-- C13, amended: for every login whose transport call fails, `login` returns
a failure whose message is the server's message `error.response.data.message`
when the error carries one (a truthy one) and the generic `Login failed`
otherwise, and leaves the in-memory token and user unchanged; the persisted
token and user are unchanged as well, the whole session being as before,
unless the status of the failed response is 401, in which case the response
handler of the transport has removed the persisted token and user. -/
theorem login_failure_message_and_state (stringify : JSValue → JSValue)
    (s : AuthContext.Session) (error : JSValue) :
    (AuthContext.login stringify s (.error error)).2 =
      .ok (.failure
        (if (specField (specField (specField error "response") "data") "message").toBoolean
         then specField (specField (specField error "response") "data") "message"
         else .str "Login failed")) ∧
    (AuthContext.login stringify s (.error error)).1.token = s.token ∧
    (AuthContext.login stringify s (.error error)).1.user = s.user ∧
    (AuthContext.login stringify s (.error error)).1.loading = s.loading ∧
    (specField (specField error "response") "status" ≠ .num 401 →
      (AuthContext.login stringify s (.error error)).1 = s) ∧
    (specField (specField error "response") "status" = .num 401 →
      (AuthContext.login stringify s (.error error)).1.storage =
        (s.storage.removeItem "token").removeItem "user" ∧
      (AuthContext.login stringify s (.error error)).1.storage.getItem "token" = none ∧
      (AuthContext.login stringify s (.error error)).1.storage.getItem "user" = none) := by
  have hmsg : ∀ e : JSValue, e.isNullish = false →
      (AuthContext.loginMessage e).map AuthContext.LoginResult.failure =
        .ok (.failure
          (if (specField (specField (specField e "response") "data") "message").toBoolean
           then specField (specField (specField e "response") "data") "message"
           else .str "Login failed")) := by
    intro e he
    simp only [AuthContext.loginMessage, getProp_eq_specField e _ he, optProp_eq_specField,
      bind, Except.bind]
    by_cases hm :
        (specField (specField (specField e "response") "data") "message").toBoolean = true
    · simp [hm, Except.map, pure, Except.pure]
    · simp [hm, Except.map, pure, Except.pure]
  refine ⟨?_, rfl, rfl, rfl, ?_, ?_⟩
  · by_cases hn : error.isNullish = true
    · have hs : specField (specField (specField error "response") "data") "message"
          = .undefined := by
        cases error <;> simp_all [JSValue.isNullish] <;> rfl
      simp only [AuthContext.login, responseError_of_nullish _ error hn, hs]
      rfl
    · have hn' : error.isNullish = false := by simpa using hn
      have h2 : (Api.responseError ⟨s.storage, "/login"⟩ error).2 = error := by
        rw [responseError_of_object _ error hn']
        split <;> rfl
      simp only [AuthContext.login, h2]
      exact hmsg error hn'
  · intro hne
    have hb : (specField (specField error "response") "status").strictEqNum 401 = false := by
      cases hv : specField (specField error "response") "status" <;>
        simp_all [JSValue.strictEqNum]
    by_cases hn : error.isNullish = true
    · simp [AuthContext.login, responseError_of_nullish _ error hn]
    · have hn' : error.isNullish = false := by simpa using hn
      simp [AuthContext.login, responseError_of_object _ error hn', hb]
  · intro h401
    have hn' : error.isNullish = false := by
      cases error <;> simp_all [specField, JSValue.isNullish]
    have hst : (AuthContext.login stringify s (.error error)).1.storage =
        (s.storage.removeItem "token").removeItem "user" := by
      simp [AuthContext.login, responseError_of_object _ error hn', h401, JSValue.strictEqNum]
    refine ⟨hst, ?_, ?_⟩
    · rw [hst]
      simp [getItem_removeItem]
    · rw [hst]
      simp [getItem_removeItem]

/-- The amended C13 on an anonymous session: a rejection with status 400 that
carries the server message `Invalid credentials`, and a network error that
carries no response; the session stays as it was. -/
theorem login_failure_message_and_state_witness :
    (AuthContext.login (fun _ => .str "{}") (AuthContext.init [])
        (.error (.obj [("response", .obj [("status", .num 400),
          ("data", .obj [("message", .str "Invalid credentials")])])]))).2
      = .ok (.failure (.str "Invalid credentials")) ∧
    (AuthContext.login (fun _ => .str "{}") (AuthContext.init [])
        (.error (.obj [("response", .obj [("status", .num 400),
          ("data", .obj [("message", .str "Invalid credentials")])])]))).1
      = AuthContext.init [] ∧
    (AuthContext.login (fun _ => .str "{}") (AuthContext.init [])
        (.error (.obj [("message", .str "Network Error")]))).2
      = .ok (.failure (.str "Login failed")) :=
  ⟨(login_failure_message_and_state (fun _ => .str "{}") (AuthContext.init [])
      (.obj [("response", .obj [("status", .num 400),
        ("data", .obj [("message", .str "Invalid credentials")])])])).1,
   (login_failure_message_and_state (fun _ => .str "{}") (AuthContext.init [])
      (.obj [("response", .obj [("status", .num 400),
        ("data", .obj [("message", .str "Invalid credentials")])])])).2.2.2.2.1
      (by simp [specField, List.lookup]),
   (login_failure_message_and_state (fun _ => .str "{}") (AuthContext.init [])
      (.obj [("message", .str "Network Error")])).1⟩

theorem removeItem_removeItem_idem (st : Storage) :
    ((((st.removeItem "token").removeItem "user").removeItem "token").removeItem "user") =
      (st.removeItem "token").removeItem "user" := by
  simp only [Storage.removeItem, List.filter_filter]
  apply List.filter_congr
  intro p _
  cases h1 : (p.1 != "token") <;> cases h2 : (p.1 != "user") <;> simp [h1, h2]

/-- C14. From every state, `logout` removes the persisted token and user and
sets the in-memory token and user to `null`, and applying `logout` twice
leaves the same state as applying it once. -/
theorem logout_clears_and_is_idempotent (s : AuthContext.Session) :
    (AuthContext.logout s).storage.getItem "token" = none ∧
    (AuthContext.logout s).storage.getItem "user" = none ∧
    (AuthContext.logout s).token = .null ∧
    (AuthContext.logout s).user = .null ∧
    AuthContext.logout (AuthContext.logout s) = AuthContext.logout s := by
  have hc := logout_cleared s
  refine ⟨hc.1, hc.2.1, rfl, rfl, ?_⟩
  simp only [AuthContext.logout, removeItem_removeItem_idem]

/-- C15. `isAdmin` never throws; it returns `true` if and only if a user is
present and its role is exactly the string `admin`, and `false` when the user
is `null` or `undefined`. -/
theorem isAdmin_iff_role_admin (s : AuthContext.Session) :
    ∃ b, AuthContext.isAdmin s = .ok b ∧
      (b = true ↔ s.user.toBoolean = true ∧ specField s.user "role" = .str "admin") ∧
      (s.user.isNullish = true → b = false) := by
  refine ⟨_, isAdmin_eq s, ?_, ?_⟩
  · constructor
    · intro hb
      have hr : specField s.user "role" = .str "admin" := by
        cases hv : specField s.user "role" <;>
          simp_all [JSValue.strictEqStr]
      refine ⟨?_, hr⟩
      cases hu : s.user <;> simp_all [specField, JSValue.toBoolean]
    · intro h
      simp [h.2, JSValue.strictEqStr]
  · intro hn
    cases hu : s.user <;> simp_all [specField, JSValue.isNullish, JSValue.strictEqStr]

/-- C15 on the anonymous session: `isAdmin` returns `false`. -/
theorem isAdmin_iff_role_admin_witness :
    AuthContext.isAdmin (AuthContext.init []) = .ok false :=
  match isAdmin_iff_role_admin (AuthContext.init []) with
  | ⟨b, hb, _, hf⟩ => by rw [hb, hf rfl]

/-- C16. The access gate holds while restoration is in flight; otherwise it
redirects to `/login` when there is no user, redirects to `/dashboard` when
the route is admin-only and the role of the user is not `admin`, and allows
in every other case; so a present admin is allowed on admin-only and on
ordinary routes alike. -/
theorem protectedRoute_decision (adminOnly : Bool) (s : AuthContext.Session) :
    (s.loading = true → ProtectedRoute adminOnly s = .ok .hold) ∧
    (s.loading = false → s.user.toBoolean = false →
      ProtectedRoute adminOnly s = .ok (.redirect "/login")) ∧
    (s.loading = false → s.user.toBoolean = true → adminOnly = true →
      specField s.user "role" ≠ .str "admin" →
      ProtectedRoute adminOnly s = .ok (.redirect "/dashboard")) ∧
    (s.loading = false → s.user.toBoolean = true → adminOnly = false →
      ProtectedRoute adminOnly s = .ok .allow) ∧
    (s.loading = false → s.user.toBoolean = true →
      specField s.user "role" = .str "admin" →
      ProtectedRoute adminOnly s = .ok .allow) := by
  refine ⟨?_, ?_, ?_, ?_, ?_⟩
  · intro hl
    simp [ProtectedRoute, hl, pure, Except.pure]
  · intro hl hu
    simp [ProtectedRoute, hl, hu, pure, Except.pure]
  · intro hl hu ha hr
    have hb : (specField s.user "role").strictEqStr "admin" = false := by
      cases hv : specField s.user "role" <;> simp_all [JSValue.strictEqStr]
    simp [ProtectedRoute, hl, hu, ha, isAdmin_eq, hb, bind, Except.bind, pure, Except.pure]
  · intro hl hu ha
    simp [ProtectedRoute, hl, hu, ha, isAdmin_eq, bind, Except.bind, pure, Except.pure]
  · intro hl hu hr
    simp [ProtectedRoute, hl, hu, isAdmin_eq, hr, JSValue.strictEqStr, bind, Except.bind, pure,
      Except.pure]

/-- C16 on four sessions: restoration in flight, no user, a user of role
`user` on an admin-only route, and an admin on an admin-only route. -/
theorem protectedRoute_decision_witness :
    ProtectedRoute true (AuthContext.init [("token", "t")]) = .ok .hold ∧
    ProtectedRoute false ⟨.null, false, .null, []⟩ = .ok (.redirect "/login") ∧
    ProtectedRoute true ⟨.obj [("role", .str "user")], false, .str "t", [("token", "t")]⟩
      = .ok (.redirect "/dashboard") ∧
    ProtectedRoute true ⟨.obj [("role", .str "admin")], false, .str "t", [("token", "t")]⟩
      = .ok .allow :=
  ⟨(protectedRoute_decision true (AuthContext.init [("token", "t")])).1 rfl,
   (protectedRoute_decision false ⟨.null, false, .null, []⟩).2.1 rfl rfl,
   (protectedRoute_decision true
      ⟨.obj [("role", .str "user")], false, .str "t", [("token", "t")]⟩).2.2.1 rfl rfl rfl
      (by simp [specField, List.lookup]),
   (protectedRoute_decision true
      ⟨.obj [("role", .str "admin")], false, .str "t", [("token", "t")]⟩).2.2.2.2 rfl rfl rfl⟩

/-- C17, as stated, fails at the boundary: an active alert whose expiry time
equals the current time is shown as Active, not as Expired. -/
theorem status_at_expiry_instant_is_active :
    AlertList.getStatusChip (fun _ => some 1000) 1000
        ⟨.str "a1", .undefined, .undefined, .undefined, .undefined, .bool true, .num 1000⟩
      = .active ∧
    AlertList.getStatusChip (fun _ => some 1000) 1000
        ⟨.str "a1", .undefined, .undefined, .undefined, .undefined, .bool true, .num 1000⟩
      ≠ .expired := by
  constructor
  · rfl
  · intro h
    have h' : AlertList.getStatusChip (fun _ => some 1000) 1000
        ⟨.str "a1", .undefined, .undefined, .undefined, .undefined, .bool true, .num 1000⟩
      = .active := rfl
    rw [h'] at h
    cases h

/-- C17, amended: for every alert and every current time, the status the
admin list derives is Expired exactly when `expiryTime` is a valid date
strictly before now, whatever `isActive` is, and Active exactly when
`isActive` holds and `expiryTime` is not strictly before now (it is now,
later, or not a valid date); in particular an alert whose expiry is in the
past is never shown as Active. -/
theorem status_expired_iff_strictly_past (toTime : JSValue → Option Int) (now : Int)
    (alert : AlertList.Alert) :
    (AlertList.getStatusChip toTime now alert = .expired ↔
      ∃ e, toTime alert.expiryTime = some e ∧ e < now) ∧
    (AlertList.getStatusChip toTime now alert = .active ↔
      alert.isActive.toBoolean = true ∧ ¬ ∃ e, toTime alert.expiryTime = some e ∧ e < now) ∧
    (∀ e, toTime alert.expiryTime = some e → e < now →
      AlertList.getStatusChip toTime now alert ≠ .active) := by
  have hlt : AlertList.dateLt (toTime alert.expiryTime) now = true ↔
      ∃ e, toTime alert.expiryTime = some e ∧ e < now := by
    cases ht : toTime alert.expiryTime with
    | none => simp [AlertList.dateLt]
    | some e => simp [AlertList.dateLt]
  by_cases hd : AlertList.dateLt (toTime alert.expiryTime) now = true
  · have hex := hlt.mp hd
    have hs : AlertList.getStatusChip toTime now alert = .expired := by
      simp [AlertList.getStatusChip, hd]
    refine ⟨⟨fun _ => hex, fun _ => hs⟩, ⟨?_, ?_⟩, ?_⟩
    · intro h
      rw [hs] at h
      cases h
    · intro h
      exact absurd hex h.2
    · intro e _ _ h
      rw [hs] at h
      cases h
  · have hnex : ¬ ∃ e, toTime alert.expiryTime = some e ∧ e < now := fun h => hd (hlt.mpr h)
    by_cases ha : alert.isActive.toBoolean = true
    · have hs : AlertList.getStatusChip toTime now alert = .active := by
        simp [AlertList.getStatusChip, hd, ha]
      refine ⟨⟨?_, fun h => absurd h hnex⟩, ⟨fun _ => ⟨ha, hnex⟩, fun _ => hs⟩, ?_⟩
      · intro h
        rw [hs] at h
        cases h
      · intro e he hlt'
        exact absurd ⟨e, he, hlt'⟩ hnex
    · have hs : AlertList.getStatusChip toTime now alert = .inactive := by
        simp [AlertList.getStatusChip, hd, ha]
      refine ⟨⟨?_, fun h => absurd h hnex⟩, ⟨?_, fun h => absurd h.1 ha⟩, ?_⟩
      · intro h
        rw [hs] at h
        cases h
      · intro h
        rw [hs] at h
        cases h
      · intro e he hlt'
        exact absurd ⟨e, he, hlt'⟩ hnex

/-- The amended C17 on an active alert that expired at time 500, seen at time
1000: it is not shown as Active. -/
theorem status_expired_iff_strictly_past_witness :
    AlertList.getStatusChip (fun _ => some 500) 1000
        ⟨.str "a1", .undefined, .undefined, .undefined, .undefined, .bool true, .num 500⟩
      ≠ .active :=
  (status_expired_iff_strictly_past (fun _ => some 500) 1000
    ⟨.str "a1", .undefined, .undefined, .undefined, .undefined, .bool true, .num 500⟩).2.2
    500 rfl (by decide)

/-- C18. For every failed response, an error object `error`: when
`error.response.status` is 401 the response handler removes the persisted
token and user and sets the location to `/login`; for every other status, and
for an error without a response, it leaves the persisted values and the
location untouched; in both cases it rejects with the original error. -/
theorem responseError_clears_on_401_only (b : Api.Browser) (error : JSValue)
    (h : error.isNullish = false) :
    (specField (specField error "response") "status" = .num 401 →
      (Api.responseError b error).1.storage.getItem "token" = none ∧
      (Api.responseError b error).1.storage.getItem "user" = none ∧
      (Api.responseError b error).1.location = "/login") ∧
    (specField (specField error "response") "status" ≠ .num 401 →
      (Api.responseError b error).1 = b) ∧
    (Api.responseError b error).2 = error := by
  have hread : (do
      let response ← error.getProp "response"
      response.optProp "status" : Except JSValue JSValue) =
      .ok (specField (specField error "response") "status") := by
    simp [getProp_eq_specField error _ h, optProp_eq_specField, bind, Except.bind]
  refine ⟨?_, ?_, ?_⟩
  · intro h401
    simp [Api.responseError, hread, h401, JSValue.strictEqNum, getItem_removeItem]
  · intro hne
    have hb : (specField (specField error "response") "status").strictEqNum 401 = false := by
      cases hv : specField (specField error "response") "status" <;>
        simp_all [JSValue.strictEqNum]
    simp [Api.responseError, hread, hb]
  · by_cases hb : (specField (specField error "response") "status").strictEqNum 401 = true
    · simp [Api.responseError, hread, hb]
    · simp [Api.responseError, hread, hb]

/-- C18 on a 401 response and on a 500 response, with the token `t` and a
user persisted and the admin list open. -/
theorem responseError_clears_on_401_only_witness :
    ((Api.responseError ⟨[("token", "t"), ("user", "{}")], "/admin/alerts"⟩
        (.obj [("response", .obj [("status", .num 401)])])).1.storage.getItem "token" = none ∧
      (Api.responseError ⟨[("token", "t"), ("user", "{}")], "/admin/alerts"⟩
        (.obj [("response", .obj [("status", .num 401)])])).1.storage.getItem "user" = none ∧
      (Api.responseError ⟨[("token", "t"), ("user", "{}")], "/admin/alerts"⟩
        (.obj [("response", .obj [("status", .num 401)])])).1.location = "/login") ∧
    (Api.responseError ⟨[("token", "t"), ("user", "{}")], "/admin/alerts"⟩
        (.obj [("response", .obj [("status", .num 500)])])).1
      = ⟨[("token", "t"), ("user", "{}")], "/admin/alerts"⟩ :=
  ⟨(responseError_clears_on_401_only ⟨[("token", "t"), ("user", "{}")], "/admin/alerts"⟩
      (.obj [("response", .obj [("status", .num 401)])]) rfl).1 rfl,
   (responseError_clears_on_401_only ⟨[("token", "t"), ("user", "{}")], "/admin/alerts"⟩
      (.obj [("response", .obj [("status", .num 500)])]) rfl).2.1
      (by simp [specField, List.lookup])⟩

/-- C19. In the user dashboard, when the request of `loadAlerts` fails the
alert list is left exactly as it was; when the request of `handleMarkAsRead`
or of `handleSnooze` fails the alert list is left exactly as it was and an
error feedback message is set; and when the action succeeds but the reload
that follows fails, the alert list is again left as it was. -/
theorem failed_call_keeps_alert_list (s : UserDashboard.State) (alertId error : JSValue)
    (reply : JSValue) (fetch : Except JSValue JSValue) :
    (UserDashboard.loadAlerts s (.error error)).alerts = s.alerts ∧
    ((UserDashboard.handleMarkAsRead s alertId (.error error) fetch).alerts = s.alerts ∧
      (UserDashboard.handleMarkAsRead s alertId (.error error) fetch).feedback =
        some ⟨"error", "Error marking alert as read"⟩) ∧
    ((UserDashboard.handleSnooze s alertId (.error error) fetch).alerts = s.alerts ∧
      (UserDashboard.handleSnooze s alertId (.error error) fetch).feedback =
        some ⟨"error", "Error snoozing alert"⟩) ∧
    (UserDashboard.handleMarkAsRead s alertId (.ok reply) (.error error)).alerts = s.alerts ∧
    (UserDashboard.handleSnooze s alertId (.ok reply) (.error error)).alerts = s.alerts :=
  ⟨rfl, ⟨rfl, rfl⟩, ⟨rfl, rfl⟩, rfl, rfl⟩

/-- C20. After `markAsRead` or `snooze` succeeds, when the payload returned by
the fetch that follows normalises to the list `L`, the alert list held by the
user dashboard is `L`, whatever list was held before the action and whatever
alert the action was for: the affected alert is never edited in place. -/
theorem successful_action_reloads_alert_list (s s' : UserDashboard.State)
    (alertId alertId' reply reply' : JSValue) (fetch : Except JSValue JSValue)
    (L : List UserDashboard.Alert) (h : UserDashboard.fetchedAlerts fetch = .ok L) :
    (UserDashboard.handleMarkAsRead s alertId (.ok reply) fetch).alerts = L ∧
    (UserDashboard.handleSnooze s alertId (.ok reply) fetch).alerts = L ∧
    (UserDashboard.handleMarkAsRead s' alertId' (.ok reply') fetch).alerts =
      (UserDashboard.handleMarkAsRead s alertId (.ok reply) fetch).alerts ∧
    (UserDashboard.handleSnooze s' alertId' (.ok reply') fetch).alerts =
      (UserDashboard.handleSnooze s alertId (.ok reply) fetch).alerts := by
  simp only [UserDashboard.handleMarkAsRead, UserDashboard.handleSnooze,
    loadAlerts_ok _ fetch L h, and_self]

/-- C20 on a dashboard holding the unread alert `a1`: `markAsRead` succeeds,
the fetch returns `{data: [{id: "a1", is_read: true}, {id: "a2"}]}`, and the
list held afterwards is the normalisation of that payload. -/
theorem successful_action_reloads_alert_list_witness :
    (UserDashboard.handleMarkAsRead
        ⟨[⟨.str "a1", .undefined, .undefined, .undefined, .bool false, .bool false,
          .undefined, .undefined⟩], false, none⟩
        (.str "a1") (.ok .undefined)
        (.ok (.obj [("data", .obj [("data",
          .arr [.obj [("id", .str "a1"), ("is_read", .bool true)],
                .obj [("id", .str "a2")]])])]))).alerts =
      [⟨.str "a1", .undefined, .undefined, .undefined, .bool true, .bool false,
          .undefined, .undefined⟩,
       ⟨.str "a2", .undefined, .undefined, .undefined, .bool false, .bool false,
          .undefined, .undefined⟩] :=
  (successful_action_reloads_alert_list
    ⟨[⟨.str "a1", .undefined, .undefined, .undefined, .bool false, .bool false,
      .undefined, .undefined⟩], false, none⟩ UserDashboard.State.initial
    (.str "a1") (.str "a1") .undefined .undefined
    (.ok (.obj [("data", .obj [("data",
      .arr [.obj [("id", .str "a1"), ("is_read", .bool true)],
            .obj [("id", .str "a2")]])])]))
    _ rfl).1

theorem adminLoadAlerts_ok (s : AlertList.State) (fetch : Except JSValue JSValue)
    (L : List AlertList.Alert) (h : AlertList.fetchedAlerts fetch = .ok L) :
    AlertList.loadAlerts s fetch = { s with alerts := L, loading := false } := by
  simp [AlertList.loadAlerts, h]

theorem adminFetchedAlerts_ok (response payload list : JSValue) (L : List AlertList.Alert)
    (hp : response.optProp "data" = .ok payload)
    (hl : AlertList.extractList payload = .ok list)
    (hn : AlertList.normalizeList list = .ok L) :
    AlertList.fetchedAlerts (.ok response) = .ok L := by
  simp [AlertList.fetchedAlerts, bind, Except.bind, hp, hl, hn]

/-- C21. For archive in the admin list, with an alert selected: when the
remote archive call succeeds the confirmation dialog is closed and the list
is reloaded, that is, replaced by the normalisation of the list extracted
from the body of the fetch that follows (for a body that is the array `raws`,
by the normalised items of `raws`), and left as it was, with the dialog
closed, when that fetch fails; when the archive call fails the whole state is
as before, so the alert list is unchanged and the dialog stays open, and
closing the dialog still works. -/
theorem archive_success_closes_failure_keeps (s : AlertList.State) (alert : AlertList.Alert)
    (hsel : s.selectedAlert = some alert) (reply error : JSValue)
    (fetch : Except JSValue JSValue) :
    (AlertList.handleDelete s (.ok reply) fetch).deleteDialog = false ∧
    AlertList.handleDelete s (.ok reply) fetch =
      AlertList.loadAlerts { s with deleteDialog := false } fetch ∧
    (∀ L, AlertList.fetchedAlerts fetch = .ok L →
      (AlertList.handleDelete s (.ok reply) fetch).alerts = L) ∧
    (∀ response payload list L, response.optProp "data" = .ok payload →
      AlertList.extractList payload = .ok list →
      AlertList.normalizeList list = .ok L →
      AlertList.handleDelete s (.ok reply) (.ok response) =
        { s with alerts := L, loading := false, deleteDialog := false }) ∧
    (∀ raws L, raws.mapM AlertList.normalizeAlert = .ok L →
      AlertList.handleDelete s (.ok reply) (.ok (.obj [("data", .arr raws)])) =
        { s with alerts := L, loading := false, deleteDialog := false }) ∧
    AlertList.handleDelete s (.ok reply) (.error error) =
      { s with loading := false, deleteDialog := false } ∧
    AlertList.handleDelete s (.error error) fetch = s ∧
    (s.deleteDialog = true →
      (AlertList.handleDelete s (.error error) fetch).deleteDialog = true) ∧
    (AlertList.closeDeleteDialog (AlertList.handleDelete s (.error error) fetch)).deleteDialog
      = false ∧
    (AlertList.closeDeleteDialog (AlertList.handleDelete s (.error error) fetch)).alerts
      = s.alerts := by
  have hok : ∀ f, AlertList.handleDelete s (.ok reply) f =
      AlertList.loadAlerts { s with deleteDialog := false } f := by
    intro f
    simp [AlertList.handleDelete, hsel]
  have herr : AlertList.handleDelete s (.error error) fetch = s := by
    simp [AlertList.handleDelete, hsel]
  refine ⟨?_, hok fetch, ?_, ?_, ?_, ?_, herr, ?_, ?_, ?_⟩
  · rw [hok]
    unfold AlertList.loadAlerts
    split <;> rfl
  · intro L hL
    rw [hok, adminLoadAlerts_ok _ fetch L hL]
  · intro response payload list L hp hl hn
    rw [hok, adminLoadAlerts_ok _ _ L (adminFetchedAlerts_ok response payload list L hp hl hn)]
  · intro raws L hL
    rw [hok, adminLoadAlerts_ok _ _ L
      (adminFetchedAlerts_ok (.obj [("data", .arr raws)]) (.arr raws) (.arr raws) L rfl rfl
        (by simpa [AlertList.normalizeList] using hL))]
  · rw [hok]
    rfl
  · intro hd
    rw [herr, hd]
  · rfl
  · rw [herr]
    rfl

/-- C21 on the admin list holding the alerts `a1` and `a2`, with the dialog
opened for `a1`.  The archive succeeds and the fetch that follows returns
`{results: [a2]}` in its envelope: the dialog is closed and the list holds
the normalised `a2` alone.  The archive fails for a nonexistent id: the list
and the open dialog are as they were. -/
theorem archive_success_closes_failure_keeps_witness :
    (AlertList.handleDelete
        (AlertList.openDeleteDialog
          ⟨[⟨.str "a1", .str "Disk", .str "full", .str "Info", .str "org", .bool true, .num 5000⟩,
            ⟨.str "a2", .str "Net", .str "down", .str "Critical", .undefined, .bool false, .num 9000⟩], false, "", "", none, false⟩
          ⟨.str "a1", .str "Disk", .str "full", .str "Info", .str "org", .bool true, .num 5000⟩)
        (.ok (.obj [("status", .num 200)]))
        (.ok (.obj [("data", .obj [("results",
          .arr [.obj [("pk", .str "a2"), ("title", .str "Net"), ("message", .str "down"),
            ("severity", .str "Critical"), ("expire_at", .num 9000)]])])]))).alerts =
      [⟨.str "a2", .str "Net", .str "down", .str "Critical", .undefined, .bool false, .num 9000⟩] ∧
    (AlertList.handleDelete
        (AlertList.openDeleteDialog
          ⟨[⟨.str "a1", .str "Disk", .str "full", .str "Info", .str "org", .bool true, .num 5000⟩,
            ⟨.str "a2", .str "Net", .str "down", .str "Critical", .undefined, .bool false, .num 9000⟩], false, "", "", none, false⟩
          ⟨.str "a1", .str "Disk", .str "full", .str "Info", .str "org", .bool true, .num 5000⟩)
        (.ok (.obj [("status", .num 200)]))
        (.ok (.obj [("data", .obj [("results",
          .arr [.obj [("pk", .str "a2"), ("title", .str "Net"), ("message", .str "down"),
            ("severity", .str "Critical"), ("expire_at", .num 9000)]])])]))).deleteDialog = false ∧
    AlertList.handleDelete
        (AlertList.openDeleteDialog
          ⟨[⟨.str "a1", .str "Disk", .str "full", .str "Info", .str "org", .bool true, .num 5000⟩,
            ⟨.str "a2", .str "Net", .str "down", .str "Critical", .undefined, .bool false, .num 9000⟩], false, "", "", none, false⟩
          ⟨.str "a1", .str "Disk", .str "full", .str "Info", .str "org", .bool true, .num 5000⟩)
        (.error (.obj [("response", .obj [("status", .num 404)])])) (.ok .undefined) =
      (AlertList.openDeleteDialog
          ⟨[⟨.str "a1", .str "Disk", .str "full", .str "Info", .str "org", .bool true, .num 5000⟩,
            ⟨.str "a2", .str "Net", .str "down", .str "Critical", .undefined, .bool false, .num 9000⟩], false, "", "", none, false⟩
          ⟨.str "a1", .str "Disk", .str "full", .str "Info", .str "org", .bool true, .num 5000⟩) :=
  ⟨(archive_success_closes_failure_keeps
      (AlertList.openDeleteDialog
          ⟨[⟨.str "a1", .str "Disk", .str "full", .str "Info", .str "org", .bool true, .num 5000⟩,
            ⟨.str "a2", .str "Net", .str "down", .str "Critical", .undefined, .bool false, .num 9000⟩], false, "", "", none, false⟩
          ⟨.str "a1", .str "Disk", .str "full", .str "Info", .str "org", .bool true, .num 5000⟩)
      ⟨.str "a1", .str "Disk", .str "full", .str "Info", .str "org", .bool true, .num 5000⟩
      rfl (.obj [("status", .num 200)]) .null
      (.ok (.obj [("data", .obj [("results",
          .arr [.obj [("pk", .str "a2"), ("title", .str "Net"), ("message", .str "down"),
            ("severity", .str "Critical"), ("expire_at", .num 9000)]])])]))).2.2.1
      [⟨.str "a2", .str "Net", .str "down", .str "Critical", .undefined, .bool false, .num 9000⟩] rfl,
   (archive_success_closes_failure_keeps
      (AlertList.openDeleteDialog
          ⟨[⟨.str "a1", .str "Disk", .str "full", .str "Info", .str "org", .bool true, .num 5000⟩,
            ⟨.str "a2", .str "Net", .str "down", .str "Critical", .undefined, .bool false, .num 9000⟩], false, "", "", none, false⟩
          ⟨.str "a1", .str "Disk", .str "full", .str "Info", .str "org", .bool true, .num 5000⟩)
      ⟨.str "a1", .str "Disk", .str "full", .str "Info", .str "org", .bool true, .num 5000⟩
      rfl (.obj [("status", .num 200)]) .null
      (.ok (.obj [("data", .obj [("results",
          .arr [.obj [("pk", .str "a2"), ("title", .str "Net"), ("message", .str "down"),
            ("severity", .str "Critical"), ("expire_at", .num 9000)]])])]))).1,
   (archive_success_closes_failure_keeps
      (AlertList.openDeleteDialog
          ⟨[⟨.str "a1", .str "Disk", .str "full", .str "Info", .str "org", .bool true, .num 5000⟩,
            ⟨.str "a2", .str "Net", .str "down", .str "Critical", .undefined, .bool false, .num 9000⟩], false, "", "", none, false⟩
          ⟨.str "a1", .str "Disk", .str "full", .str "Info", .str "org", .bool true, .num 5000⟩)
      ⟨.str "a1", .str "Disk", .str "full", .str "Info", .str "org", .bool true, .num 5000⟩
      rfl .undefined (.obj [("response", .obj [("status", .num 404)])])
      (.ok .undefined)).2.2.2.2.2.2.1⟩

/-- C22, as stated, fails: the raw item `{title: "Disk"}` has no identifier,
its normalised `_id` is `undefined`, and each of the four lifecycle actions on
it issues its remote call with the text `undefined` as the key. -/
theorem absent_identifier_is_used_as_key :
    (UserDashboard.normalizeAlert (.obj [("title", .str "Disk")])).map (fun r => r._id)
      = .ok .undefined ∧
    UserDashboard.clickMarkAsRead
        ⟨.undefined, .str "Disk", .undefined, .undefined, .bool false, .bool false,
          .undefined, .undefined⟩
      = [⟨"put", "/user/alerts/undefined/mark_read/"⟩] ∧
    UserDashboard.clickSnooze
        ⟨.undefined, .str "Disk", .undefined, .undefined, .bool false, .bool false,
          .undefined, .undefined⟩
      = [⟨"post", "/user/alerts/undefined/snooze/"⟩] ∧
    AlertList.clickTrigger
        ⟨.undefined, .str "Disk", .undefined, .undefined, .undefined, .bool false,
          .undefined⟩
      = [⟨"post", "/admin/alerts/undefined/trigger/"⟩] ∧
    AlertList.archiveCalls
        (AlertList.openDeleteDialog ⟨[], false, "", "", none, false⟩
          ⟨.undefined, .str "Disk", .undefined, .undefined, .undefined, .bool false,
            .undefined⟩)
      = [⟨"delete", "/admin/alerts/undefined/archive/"⟩] :=
  ⟨rfl, rfl, rfl, rfl, rfl⟩

/-- C22, amended: for every alert, also one whose normalised identifier is
absent, each lifecycle action (markAsRead, snooze, trigger, archive) issues
exactly one remote call, keyed by the string form of that identifier; for an
absent identifier the key is the text `undefined`, resp. `null`. -/
theorem lifecycle_calls_keyed_by_identifier_text (u : UserDashboard.Alert)
    (a : AlertList.Alert) (s : AlertList.State) :
    UserDashboard.clickMarkAsRead u =
      [⟨"put", "/user/alerts/" ++ u._id.toStr ++ "/mark_read/"⟩] ∧
    UserDashboard.clickSnooze u =
      [⟨"post", "/user/alerts/" ++ u._id.toStr ++ "/snooze/"⟩] ∧
    AlertList.clickTrigger a =
      [⟨"post", "/admin/alerts/" ++ a._id.toStr ++ "/trigger/"⟩] ∧
    AlertList.archiveCalls (AlertList.openDeleteDialog s a) =
      [⟨"delete", "/admin/alerts/" ++ a._id.toStr ++ "/archive/"⟩] ∧
    JSValue.toStr .undefined = "undefined" ∧
    JSValue.toStr .null = "null" :=
  ⟨rfl, rfl, rfl, rfl, rfl, rfl⟩

theorem header_setHeader (config : Api.Config) (v k : String) :
    Api.Config.header
        { config with headers := some (Api.setHeader (config.headers.getD []) "Authorization" v) }
        k =
      if k = "Authorization" then some v else config.header k := by
  by_cases h : k = "Authorization"
  · subst h
    simp [Api.Config.header, Api.setHeader, List.lookup]
  · have hb : (k == "Authorization") = false := by simpa using h
    have hf := lookup_filter_ne (config.headers.getD []) k "Authorization"
    simp only [h, if_false] at hf
    simp only [Api.Config.header, Api.setHeader, List.lookup, hb, h, if_false, hf]
    cases config.headers <;> rfl

theorem requestHandler_of_token (st : Storage) (config : Api.Config) (t : String)
    (h : Api.storedToken st = some t) (ht : t ≠ "") :
    Api.requestHandler st config =
      { config with
        headers := some (Api.setHeader (config.headers.getD []) "Authorization"
          ("Bearer " ++ t)) } := by
  simp [Api.requestHandler, h, ht]

theorem requestHandler_unchanged (st : Storage) (config : Api.Config)
    (h : Api.storedToken st = none ∨ Api.storedToken st = some "") :
    Api.requestHandler st config = config := by
  rcases h with h | h <;> simp [Api.requestHandler, h]

/-- C23, as stated, fails: with no `token` persisted but an `accessToken` in
`localStorage`, the request handler does not return the request unchanged, it
sets the Authorization header to `Bearer ` followed by the `accessToken`; and
with the empty string persisted as `token` it sets no header. -/
theorem requestHandler_uses_accessToken :
    Storage.getItem [("accessToken", "x")] "token" = none ∧
    Api.requestHandler [("accessToken", "x")] ⟨some [("Accept", "json")], .null⟩ =
      ⟨some [("Authorization", "Bearer x"), ("Accept", "json")], .null⟩ ∧
    Api.requestHandler [("accessToken", "x")] ⟨some [("Accept", "json")], .null⟩ ≠
      ⟨some [("Accept", "json")], .null⟩ ∧
    Api.requestHandler [("token", "")] ⟨some [("Accept", "json")], .null⟩ =
      ⟨some [("Accept", "json")], .null⟩ := by
  refine ⟨rfl, rfl, ?_, rfl⟩
  intro h
  have h' : Api.requestHandler [("accessToken", "x")] ⟨some [("Accept", "json")], .null⟩ =
      ⟨some [("Authorization", "Bearer x"), ("Accept", "json")], .null⟩ := rfl
  rw [h'] at h
  simp at h

/-- C23, amended: for every outgoing request, when a non-empty token is
persisted under `token`, or failing that a non-empty value under
`accessToken`, the request handler sets the Authorization header to `Bearer `
followed by it and changes nothing else in the request (every other header
and the rest of the configuration are as before); when neither key holds a
non-empty value it returns the request unchanged. -/
theorem requestHandler_attaches_bearer (st : Storage) (config : Api.Config) :
    (∀ t, st.getItem "token" = some t → t ≠ "" →
      (Api.requestHandler st config).header "Authorization" = some ("Bearer " ++ t) ∧
      (∀ k, k ≠ "Authorization" →
        (Api.requestHandler st config).header k = config.header k) ∧
      (Api.requestHandler st config).rest = config.rest) ∧
    (∀ x, (st.getItem "token" = none ∨ st.getItem "token" = some "") →
      st.getItem "accessToken" = some x → x ≠ "" →
      (Api.requestHandler st config).header "Authorization" = some ("Bearer " ++ x) ∧
      (∀ k, k ≠ "Authorization" →
        (Api.requestHandler st config).header k = config.header k) ∧
      (Api.requestHandler st config).rest = config.rest) ∧
    ((st.getItem "token" = none ∨ st.getItem "token" = some "") →
      (st.getItem "accessToken" = none ∨ st.getItem "accessToken" = some "") →
      Api.requestHandler st config = config) := by
  have attach : ∀ t, Api.storedToken st = some t → t ≠ "" →
      (Api.requestHandler st config).header "Authorization" = some ("Bearer " ++ t) ∧
      (∀ k, k ≠ "Authorization" →
        (Api.requestHandler st config).header k = config.header k) ∧
      (Api.requestHandler st config).rest = config.rest := by
    intro t hs ht
    rw [requestHandler_of_token st config t hs ht]
    refine ⟨?_, ?_, rfl⟩
    · rw [header_setHeader]
      simp
    · intro k hk
      rw [header_setHeader]
      simp [hk]
  refine ⟨?_, ?_, ?_⟩
  · intro t h ht
    apply attach t _ ht
    simp [Api.storedToken, h, ht]
  · intro x h hx hne
    apply attach x _ hne
    rcases h with h | h <;> simp [Api.storedToken, h, hx]
  · intro h ha
    apply requestHandler_unchanged
    rcases h with h | h <;> rcases ha with ha | ha <;> simp [Api.storedToken, h, ha]

/-- The amended C23 with the token `t` persisted, on a request that carries
an `Accept` header: the Authorization header is `Bearer t` and the `Accept`
header is as before. -/
theorem requestHandler_attaches_bearer_witness :
    (Api.requestHandler [("token", "t"), ("user", "{}")]
        ⟨some [("Accept", "json")], .obj [("url", .str "/user/alerts/")]⟩).header
        "Authorization" = some "Bearer t" ∧
    (Api.requestHandler [("token", "t"), ("user", "{}")]
        ⟨some [("Accept", "json")], .obj [("url", .str "/user/alerts/")]⟩).header "Accept"
      = some "json" :=
  ⟨((requestHandler_attaches_bearer [("token", "t"), ("user", "{}")]
      ⟨some [("Accept", "json")], .obj [("url", .str "/user/alerts/")]⟩).1 "t" rfl
      (by decide)).1,
   ((requestHandler_attaches_bearer [("token", "t"), ("user", "{}")]
      ⟨some [("Accept", "json")], .obj [("url", .str "/user/alerts/")]⟩).1 "t" rfl
      (by decide)).2.1 "Accept" (by decide)⟩

/-- C24. `restore` clears the loading flag in every outcome: when no token is
present (the identity is not requested), when the identity request resolves,
and when it is rejected. -/
theorem restore_clears_loading (s : AuthContext.Session) (fetch : Except JSValue JSValue) :
    (AuthContext.restore s fetch).loading = false ∧
    (∀ st, Storage.getItem st "token" = none →
      (AuthContext.restore (AuthContext.init st) fetch).loading = false) ∧
    (∀ response, (AuthContext.restore s (.ok response)).loading = false) ∧
    (∀ error, (AuthContext.restore s (.error error)).loading = false) := by
  have key : ∀ (s : AuthContext.Session) (fetch : Except JSValue JSValue),
      (AuthContext.restore s fetch).loading = false := by
    intro s fetch
    unfold AuthContext.restore AuthContext.loadUser
    split
    · split <;> rfl
    · rfl
  exact ⟨key s fetch, fun st _ => key _ fetch, fun r => key s _, fun e => key s _⟩

theorem unwrapUser_shapes (fields : List (String × JSValue))
    (hdata : fields.lookup "data" = none) (huser : fields.lookup "user" = none) :
    AuthContext.unwrapUser (.obj [("data", .obj fields)]) = .ok (.obj fields) ∧
    AuthContext.unwrapUser (.obj [("data", .obj [("data", .obj fields)])]) = .ok (.obj fields) ∧
    AuthContext.unwrapUser (.obj [("data", .obj [("user", .obj fields)])]) = .ok (.obj fields) ∧
    AuthContext.unwrapUser (.obj [("data", .obj [("data", .obj [("user", .obj fields)])])]) =
      .ok (.obj fields) := by
  refine ⟨?_, ?_, ?_, ?_⟩ <;>
    simp [AuthContext.unwrapUser, JSValue.optProp, JSValue.getProp, JSValue.isNullish,
      JSValue.coalesce, JSValue.toBoolean, List.lookup, hdata, huser, bind, Except.bind, pure,
      Except.pure]

/-- C25. For every user record `u`, an object that itself has no `data` field
and no `user` field, a restore with a present token sets the current user to
`u` for each of the response bodies `u`, `{data: u}`, `{user: u}` and
`{data: {user: u}}`. -/
theorem restore_unwraps_user_shapes (s : AuthContext.Session)
    (fields : List (String × JSValue)) (htoken : s.token.toBoolean = true)
    (hdata : fields.lookup "data" = none) (huser : fields.lookup "user" = none) :
    (AuthContext.restore s (.ok (.obj [("data", .obj fields)]))).user = .obj fields ∧
    (AuthContext.restore s (.ok (.obj [("data", .obj [("data", .obj fields)])]))).user
      = .obj fields ∧
    (AuthContext.restore s (.ok (.obj [("data", .obj [("user", .obj fields)])]))).user
      = .obj fields ∧
    (AuthContext.restore s
        (.ok (.obj [("data", .obj [("data", .obj [("user", .obj fields)])])]))).user
      = .obj fields := by
  obtain ⟨h1, h2, h3, h4⟩ := unwrapUser_shapes fields hdata huser
  refine ⟨?_, ?_, ?_, ?_⟩ <;>
    simp [AuthContext.restore, htoken, AuthContext.loadUser, bind, Except.bind, h1, h2, h3, h4]

/-- C25 on the user record `{id: 1, role: "admin"}` and the body
`{data: {user: u}}`, with the token `t` persisted. -/
theorem restore_unwraps_user_shapes_witness :
    (AuthContext.restore (AuthContext.init [("token", "t")])
        (.ok (.obj [("data", .obj [("data", .obj [("user",
          .obj [("id", .num 1), ("role", .str "admin")])])])]))).user
      = .obj [("id", .num 1), ("role", .str "admin")] :=
  (restore_unwraps_user_shapes (AuthContext.init [("token", "t")])
    [("id", .num 1), ("role", .str "admin")] rfl rfl rfl).2.2.2

/-- C26, as stated, fails: with an `accessToken` in `localStorage` next to the
token, `logout` removes `token` and `user` only, and the request handler
still attaches an Authorization header, `Bearer ` followed by the
`accessToken`, to the next request. -/
theorem logout_keeps_accessToken_header :
    (AuthContext.logout
        ⟨.obj [("id", .num 1)], false, .str "t",
          [("token", "t"), ("user", "{}"), ("accessToken", "x")]⟩).storage
      = [("accessToken", "x")] ∧
    (Api.requestHandler
        (AuthContext.logout
          ⟨.obj [("id", .num 1)], false, .str "t",
            [("token", "t"), ("user", "{}"), ("accessToken", "x")]⟩).storage
        ⟨none, .obj [("url", .str "/user/alerts/")]⟩).header "Authorization"
      = some "Bearer x" :=
  ⟨rfl, rfl⟩

/-- C26, amended: after `logout`, for every storage content held before it
in which `accessToken` is missing or empty, the request handler returns every
subsequent request unchanged and so attaches no Authorization header; when a
non-empty `accessToken` was held, `logout` leaves it in place and the handler
attaches it as the bearer credential. -/
theorem no_bearer_after_logout (s : AuthContext.Session) (config : Api.Config) :
    ((s.storage.getItem "accessToken" = none ∨ s.storage.getItem "accessToken" = some "") →
      Api.requestHandler (AuthContext.logout s).storage config = config) ∧
    (∀ x, s.storage.getItem "accessToken" = some x → x ≠ "" →
      (Api.requestHandler (AuthContext.logout s).storage config).header "Authorization"
        = some ("Bearer " ++ x)) := by
  have htok : (AuthContext.logout s).storage.getItem "token" = none := (logout_cleared s).1
  have hacc : (AuthContext.logout s).storage.getItem "accessToken" =
      s.storage.getItem "accessToken" := by
    simp [AuthContext.logout, getItem_removeItem]
  have hst : Api.storedToken (AuthContext.logout s).storage =
      s.storage.getItem "accessToken" := by
    simp [Api.storedToken, htok, hacc]
  constructor
  · intro h
    apply requestHandler_unchanged
    rw [hst]
    exact h
  · intro x hx hne
    rw [requestHandler_of_token _ config x (by rw [hst]; exact hx) hne, header_setHeader]
    simp

/-- The amended C26 on a session with the token `t` and a user persisted and
no `accessToken`: after `logout` a request leaves the handler as it came. -/
theorem no_bearer_after_logout_witness :
    Api.requestHandler
        (AuthContext.logout
          ⟨.obj [("id", .num 1)], false, .str "t", [("token", "t"), ("user", "{}")]⟩).storage
        ⟨none, .obj [("url", .str "/user/alerts/")]⟩
      = ⟨none, .obj [("url", .str "/user/alerts/")]⟩ :=
  (no_bearer_after_logout
    ⟨.obj [("id", .num 1)], false, .str "t", [("token", "t"), ("user", "{}")]⟩
    ⟨none, .obj [("url", .str "/user/alerts/")]⟩).1 (Or.inl rfl)

end AlertUI
